import Mathlib

/-!
# petRescue: donation loader and address refresh

A shallow embedding of the scripts of the repository:

* `src/donationScript/donationLoader.js` (namespace `DonationLoader`): CSV rows are parsed,
  validated against the Address and Volunteer tables, inserted into the Donation table or
  routed to a rejection bucket, and the buckets are written to `rejected_<leader>.csv`;
* `src/addressScript/addressRefresh.js` (namespace `AddressRefresh`): source addresses are
  matched against the Oracle Address table by a derived key and updated or inserted, in
  batches of 1000 with periodic commits;
* `addressRefresh.js` at the top level (namespace `LegacyRefresh`), the sibling version of
  the refresh that compares fields before updating.

JavaScript built-ins the scripts rely on (`parseInt`, `parseFloat`, `String.prototype.split`,
template-literal conversion, `toLowerCase`, truthiness, binary64 rounding) are embedded in
namespace `JS`. Asynchronous calls are sequential (`await`), so each script is a
state-passing function.
-/

set_option autoImplicit false

/-! ## JavaScript primitives -/

namespace JS

/-- The position of the leading binary digit of a number (0 for 0 and 1), computed in at
most `fuel` halvings. -/
def log2Fuel : Nat → Nat → Nat
  | 0, _ => 0
  | fuel + 1, n => if 2 ≤ n then log2Fuel fuel (n / 2) + 1 else 0

/-- The position of the leading binary digit of a number. -/
def log2 (n : Nat) : Nat := log2Fuel n n

/-- The binary64 value nearest to a natural number (ties to even), where `2 ^ 1024` stands
for Infinity: numbers below `2 ^ 53` are exact, larger ones keep 53 significant bits. -/
def roundNat (n : Nat) : Nat :=
  if n < 2 ^ 53 then n
  else
    let shift := log2 n - 52
    let q := n / 2 ^ shift
    let r := n % 2 ^ shift
    let q1 := if 2 ^ (shift - 1) < r ∨ (r = 2 ^ (shift - 1) ∧ q % 2 = 1) then q + 1 else q
    if 1024 ≤ log2 (q1 * 2 ^ shift) then 2 ^ 1024 else q1 * 2 ^ shift

/-- The binary64 value nearest to an integer; `2 ^ 1024` and its negative stand for the
infinities. -/
def roundDouble (z : Int) : Int :=
  if z < 0 then -(roundNat z.natAbs : Int) else (roundNat z.natAbs : Int)

/-- An integral JavaScript number or NaN: the possible results of `parseInt` and the numeric
identifiers read from the database. `int z` stands for the binary64 value nearest to `z`;
`-0` is identified with `0`, which no operation used here distinguishes. -/
inductive Number where
  | nan
  | int (z : Int)
  deriving DecidableEq

/-- Truthiness of a number: NaN and 0 are falsy. -/
def Number.truthy : Number → Bool
  | .nan => false
  | .int z => z != 0

/-- A JavaScript value of the kinds that occur in database rows: `undefined`, `null`, an
integral number (`num n` stands for the binary64 value nearest to `n`), or a string. -/
inductive Value where
  | undefined
  | null
  | num (n : Int)
  | str (s : String)
  deriving DecidableEq

/-- Truthiness: `undefined`, `null`, `0` and the empty string are falsy. -/
def Value.truthy : Value → Bool
  | .undefined => false
  | .null => false
  | .num n => n != 0
  | .str s => s != ""

/-- The operator `a || b`. -/
def Value.or (a b : Value) : Value := if a.truthy then a else b

/-- The shortest decimal of the binary64 value `x` of `n` decimal digits (Number::toString):
for the least number `k` of leading digits, from the given one on, a multiple of
`10 ^ (n - k)` next to `x` that rounds to `x`, and of two such multiples the one nearer to
`x` (the one with the even digit on a tie). -/
def shortestFrom (x n : Nat) : Nat → Nat → Nat
  | 0, _ => x
  | fuel + 1, k =>
    if n ≤ k then x
    else
      let t := 10 ^ (n - k)
      let lo := x / t * t
      let hi := lo + t
      if roundNat lo = x ∧ roundNat hi = x then
        if x - lo < hi - x ∨ (x - lo = hi - x ∧ x / t % 2 = 0) then lo else hi
      else if roundNat lo = x then lo
      else if roundNat hi = x then hi
      else shortestFrom x n fuel (k + 1)

/-- The digits of a decimal without its trailing zeros. -/
def significant (ds : List Char) : List Char :=
  (ds.reverse.dropWhile (fun c => c = '0')).reverse

/-- The text of a binary64 value that is a natural number (Number::toString, radix 10):
the decimal digits below `2 ^ 53`; beyond, the digits of the shortest decimal that rounds to
the value when it has at most 21 digits, and the exponent form otherwise. -/
def naturalText (x : Nat) : List Char :=
  if x < 2 ^ 53 then Nat.toDigits 10 x
  else if 1024 ≤ log2 x then "Infinity".toList
  else
    let n := (Nat.toDigits 10 x).length
    let ds := Nat.toDigits 10 (shortestFrom x n n 1)
    if ds.length ≤ 21 then ds
    else
      let sig := significant ds
      (sig.take 1 ++ (if 1 < sig.length then '.' :: sig.drop 1 else [])) ++
        ('e' :: '+' :: Nat.toDigits 10 (ds.length - 1))

/-- The text of the binary64 value nearest to an integer, as `String(n)` gives it. -/
def showInt (z : Int) : String :=
  if z < 0 then String.mk ('-' :: naturalText (roundNat z.natAbs))
  else String.mk (naturalText (roundNat z.natAbs))

/-- The abstract operation ToString on a number. -/
def Number.toStr : Number → String
  | .nan => "NaN"
  | .int z => showInt z

/-- The abstract operation ToString, as applied by a template literal. -/
def Value.toStr : Value → String
  | .undefined => "undefined"
  | .null => "null"
  | .num n => showInt n
  | .str s => s

/-- ToString of a possibly missing property (`none` is `undefined`). -/
def optToStr : Option String → String
  | none => "undefined"
  | some s => s

/-- White space and line terminators skipped by `parseInt` and `parseFloat`. -/
def isWhiteSpace (c : Char) : Bool :=
  let n := c.toNat
  n == 9 || n == 10 || n == 11 || n == 12 || n == 13 || n == 32 || n == 160 ||
  n == 0x1680 || (0x2000 ≤ n && n ≤ 0x200A) || n == 0x2028 || n == 0x2029 ||
  n == 0x202F || n == 0x205F || n == 0x3000 || n == 0xFEFF

/-- Value of an alphanumeric character as a digit (0-9, a-z, A-Z), if it is one. -/
def digitValue (c : Char) : Option Nat :=
  let n := c.toNat
  if 48 ≤ n ∧ n ≤ 57 then some (n - 48)
  else if 97 ≤ n ∧ n ≤ 122 then some (n - 87)
  else if 65 ≤ n ∧ n ≤ 90 then some (n - 55)
  else none

/-- Value of a character as a digit of radix `R`. -/
def radixDigit (R : Nat) (c : Char) : Option Nat :=
  match digitValue c with
  | some d => if d < R then some d else none
  | none => none

/-- The longest leading run of radix-`R` digits, as digit values. -/
def takeDigits (R : Nat) : List Char → List Nat
  | [] => []
  | c :: cs =>
    match radixDigit R c with
    | some d => d :: takeDigits R cs
    | none => []

/-- The number denoted by a big-endian list of radix-`R` digits. -/
def digitsValue (R : Nat) (ds : List Nat) : Nat := ds.foldl (fun v d => v * R + d) 0

/-- The characters left after an optional leading sign. -/
def dropSign (cs : List Char) : List Char :=
  if cs.head? = some '-' ∨ cs.head? = some '+' then cs.tail else cs

/-- The characters left after a leading `0x` or `0X`, if there is one. -/
def dropHexMark (cs : List Char) : Option (List Char) :=
  if cs.take 2 = ['0', 'x'] ∨ cs.take 2 = ['0', 'X'] then some (cs.drop 2) else none

/-- The built-in `parseInt(string, radix)`; `radix = 0` stands for an omitted radix. The
result is the binary64 value nearest to the integer the digits denote. -/
def parseInt (s : String) (radix : Nat) : Number :=
  let trimmed := s.toList.dropWhile isWhiteSpace
  let neg : Bool := trimmed.head? = some '-'
  let body := dropSign trimmed
  if radix ≠ 0 ∧ (radix < 2 ∨ 36 < radix) then .nan
  else
    let R := if radix = 0 then 10 else radix
    let hex := if radix = 0 ∨ radix = 16 then dropHexMark body else none
    let ds := match hex with
      | some rest => takeDigits 16 rest
      | none => takeDigits R body
    let R := if hex.isSome then 16 else R
    if ds = [] then .nan
    else if neg then .int (-(roundNat (digitsValue R ds) : Int))
    else .int (roundNat (digitsValue R ds))

/-- A JavaScript number as `parseFloat` yields it: NaN, an infinity, or the double nearest to
the decimal `±mant · 10^exp`. Only the class of the double (NaN, negative, zero, positive)
is observed by the scripts; it is fixed by `Decimal.leZero`. -/
inductive Decimal where
  | nan
  | inf (neg : Bool)
  | dec (neg : Bool) (mant : Nat) (exp : Int)
  deriving DecidableEq

/-- Whether the decimal `mant · 10^exp` rounds to zero in binary64 (round to nearest, ties to
even): it does exactly when it is at most `2 ^ (-1075)`, which needs `exp` below -323. -/
def roundsToZero (mant : Nat) (exp : Int) : Bool :=
  mant == 0 || (exp < -323 && mant * 2 ^ 1075 ≤ 10 ^ exp.natAbs)

/-- The comparison `x <= 0` on a number: false for NaN. -/
def Decimal.leZero : Decimal → Bool
  | .nan => false
  | .inf neg => neg
  | .dec neg mant exp => neg || roundsToZero mant exp

/-- The longest leading run of decimal digits and the rest of the text. -/
def spanDigits (cs : List Char) : List Char × List Char := cs.span Char.isDigit

/-- Value of a run of decimal digit characters. -/
def decimalValue (cs : List Char) : Nat := digitsValue 10 (takeDigits 10 cs)

/-- The exponent part of a decimal literal at the head of the text: 0 unless the text starts
with `e` or `E`, an optional sign and at least one digit. -/
def exponentPart (cs : List Char) : Int :=
  if cs.head? = some 'e' ∨ cs.head? = some 'E' then
    let t := cs.tail
    let ds := (spanDigits (dropSign t)).1
    if ds = [] then 0
    else if t.head? = some '-' then -(decimalValue ds : Int) else decimalValue ds
  else 0

/-- The built-in `parseFloat(string)`. -/
def parseFloat (s : String) : Decimal :=
  let trimmed := s.toList.dropWhile isWhiteSpace
  let neg : Bool := trimmed.head? = some '-'
  let body := dropSign trimmed
  if body.take 8 = "Infinity".toList then .inf neg
  else
    let ip := spanDigits body
    let fp := if ip.2.head? = some '.' then spanDigits ip.2.tail else ([], ip.2)
    if ip.1 = [] ∧ fp.1 = [] then .nan
    else .dec neg (decimalValue (ip.1 ++ fp.1)) (exponentPart fp.2 - fp.1.length)

/-- The pieces of `s.split(" ")`, on the characters of `s`. -/
def splitSpaceChars : List Char → List (List Char)
  | [] => [[]]
  | c :: cs =>
    if c = ' ' then [] :: splitSpaceChars cs
    else
      match splitSpaceChars cs with
      | [] => [[c]]
      | p :: ps => (c :: p) :: ps

/-- The method call `s.split(" ")`. -/
def splitSpace (s : String) : List String := (splitSpaceChars s.toList).map String.mk

/-- The lower-case mapping of Unicode for the characters outside ASCII: what the character at
a position of a text becomes (one or several characters; the text is given because the
mapping of the capital sigma depends on its neighbours). The table belongs to the JavaScript
engine, not to the repository; the scripts are modelled for every such table. -/
abbrev CaseTable := List Char → Nat → List Char

/-- Lower-casing of the characters of a text from a position on: an ASCII character becomes
its lower-case form, any other character what the table gives. -/
def lowerFrom (U : CaseTable) (text : List Char) : Nat → List Char → List Char
  | _, [] => []
  | i, c :: cs =>
    (if c.toNat < 128 then [c.toLower] else U text i) ++ lowerFrom U text (i + 1) cs

/-- The method `toLowerCase`. -/
def toLowerCase (U : CaseTable) (s : String) : String :=
  String.mk (lowerFrom U s.toList 0 s.toList)

/-- The method call `xs.join(sep)` on an array of strings. -/
def join (sep : String) (xs : List String) : String := sep.intercalate xs

end JS

/-! ## The donation loader (`src/donationScript/donationLoader.js`) -/

namespace DonationLoader

open JS

/-- One record delivered by the CSV reader: header name and cell text, in column order
(header names are distinct). -/
abbrev Row := List (String × String)

/-- Property access `row.name`; `none` is `undefined`. -/
def Row.get (row : Row) (name : String) : Option String := List.lookup name row

/-- The number a property name stands for when it is an array index: a decimal without
leading zero, below `2 ^ 32 - 1`. -/
def arrayIndex (name : String) : Option Nat :=
  let cs := name.toList
  if cs ≠ [] ∧ cs.all Char.isDigit = true ∧ (cs.head? ≠ some '0' ∨ cs.length = 1) ∧
      decimalValue cs < 2 ^ 32 - 1 then some (decimalValue cs)
  else none

/-- Insertion of an indexed cell into a list of cells in ascending index order. -/
def insertByIndex (e : Nat × String) : List (Nat × String) → List (Nat × String)
  | [] => [e]
  | x :: xs => if e.1 < x.1 then e :: x :: xs else x :: insertByIndex e xs

/-- The cells under array-index names, in ascending index order. -/
def indexedCells : Row → List (Nat × String)
  | [] => []
  | (name, cell) :: rest =>
    match arrayIndex name with
    | some i => insertByIndex (i, cell) (indexedCells rest)
    | none => indexedCells rest

/-- The call `Object.values(row)`: the cells under array-index names in ascending index
order, then the other cells in column order. -/
def Row.values (row : Row) : List String :=
  (indexedCells row).map Prod.snd ++
    (row.filter (fun e => (arrayIndex e.1).isNone)).map Prod.snd

/-- The object `donation` built from a row. `none` is `undefined` for `lastName` and `date`
and `null` for `address`. -/
structure Donation where
  id : Number
  firstName : String
  lastName : Option String
  address : Option Number
  date : Option String
  amount : Decimal
  volunteer : Number
  deriving DecidableEq

/-- A row of table Volunteer, with the two columns the script reads. -/
structure VolunteerRow where
  VOLUNTEER_ID : Int
  GROUP_LEADER : Option Int
  deriving DecidableEq

/-- The database behind `connection`, as the session sees it: the `address_id` column of
table Address, table Volunteer, the rows the session has inserted into table Donation (the
script issues no commit), and the decision of the database whether it accepts an INSERT
into Donation (constraints, date conversion). -/
structure Database where
  address : List Int
  volunteer : List VolunteerRow
  donation : List Donation
  accepts : List Donation → Donation → Bool

/-- The message of the error the driver throws when a bind value is NaN. -/
def nanBindError : String :=
  "NJS-105: value is not a number (NaN) and cannot be used in Oracle Database numbers"

/-- The call `connection.execute` with a number among its bind values: the driver throws
before the statement is sent when the number is NaN; otherwise the statement runs. -/
def withBind {α : Type} (n : Number) (run : Int → α) : Except String α :=
  match n with
  | .nan => .error nanBindError
  | .int z => .ok (run z)

/-- Lines 101-110: the object `donation` of a row. `none` is the TypeError thrown by
`row.donor_name.split` when the row has no `donor_name`; it is thrown before the `try`. -/
def parseDonation (row : Row) : Option Donation :=
  match row.get "donor_name" with
  | none => none
  | some name =>
    let parts := splitSpace name
    some
      { id := parseInt (optToStr (row.get "donation_id")) 0
        firstName := parts.headD ""
        lastName := parts[1]?
        address :=
          match row.get "address_id" with
          | some s => if s ≠ "" then some (parseInt s 0) else none
          | none => none
        date := row.get "donation_date"
        amount := parseFloat (optToStr (row.get "donation_amount"))
        volunteer := parseInt (optToStr (row.get "volunteer_id")) 0 }

/-- Rows of table Volunteer selected by `WHERE volunteer_id = :id`. -/
def volunteerRows (db : Database) (id : Int) : List VolunteerRow :=
  db.volunteer.filter (fun v => v.VOLUNTEER_ID = id)

/-- Lines 17-27: whether table Address has a row with this `address_id`. -/
def validateAddress (db : Database) (address_id : Number) : Except String Bool :=
  withBind address_id (fun z => 0 < (db.address.filter (fun a => a = z)).length)

/-- The result object of `validateVolunteer`. -/
structure VolunteerValidation where
  isValid : Bool
  groupLeader : Option Int
  deriving DecidableEq

/-- Lines 29-43. -/
def validateVolunteer (db : Database) (volunteer_id : Number) :
    Except String VolunteerValidation :=
  withBind volunteer_id (fun z =>
    match volunteerRows db z with
    | r :: _ =>
      { isValid := true
        groupLeader :=
          match r.GROUP_LEADER with
          | some l => if l ≠ 0 then some l else some r.VOLUNTEER_ID
          | none => some r.VOLUNTEER_ID }
    | [] => { isValid := false, groupLeader := none })

/-- Lines 45-74: the driver refuses the binds when one of the numbers is NaN; otherwise the
INSERT either adds the donation to table Donation or throws. The error is thrown again. -/
def insertDonation (db : Database) (donation : Donation) : Except String Database :=
  if donation.id = .nan ∨ donation.address = some .nan ∨ donation.amount = .nan ∨
      donation.volunteer = .nan then .error nanBindError
  else if db.accepts db.donation donation then
    .ok { db with donation := db.donation ++ [donation] }
  else .error "insert failed"

/-- Lines 75-87: `COALESCE(group_leader, volunteer_id)` of the volunteer, or the given id when
the volunteer is not in the table; the driver throws when the id is NaN. -/
def getGroupLeader (db : Database) (volunteer_id : Number) : Except String Number :=
  withBind volunteer_id (fun z =>
    match volunteerRows db z with
    | r :: _ => .int (r.GROUP_LEADER.getD r.VOLUNTEER_ID)
    | [] => volunteer_id)

/-- Falsiness of `donation.address` (`null`, NaN and 0 are falsy). -/
def addressMissing (donation : Donation) : Bool :=
  match donation.address with
  | none => true
  | some n => !n.truthy

/-- Lines 135-137: whether some value of the object `donation` is `null` or `undefined`. -/
def hasNullValues (donation : Donation) : Bool :=
  donation.lastName.isNone || donation.address.isNone || donation.date.isNone

/-- A call made on the connection, recorded in call order. -/
inductive Call where
  | validateAddress (address_id : Number)
  | validateVolunteer (volunteer_id : Number)
  | insertDonation (donation : Donation)
  | getGroupLeader (volunteer_id : Number)
  deriving DecidableEq

/-- Lines 112-146: the body of the `try`. The result is the list of calls made on the
connection and either the database after the insert or the message of the error thrown. -/
def tryBlock (db : Database) (donation : Donation) : List Call × Except String Database :=
  if addressMissing donation then ([], .error "Empty address_id")
  else
    let address := donation.address.getD .nan
    let c1 := [Call.validateAddress address]
    match validateAddress db address with
    | .error message => (c1, .error message)
    | .ok isAddressValid =>
      if !isAddressValid then (c1, .error "Invalid address")
      else if !donation.volunteer.truthy then (c1, .error "Empty volunteer_id")
      else
        let c2 := c1 ++ [Call.validateVolunteer donation.volunteer]
        match validateVolunteer db donation.volunteer with
        | .error message => (c2, .error message)
        | .ok volunteerValidation =>
          if !volunteerValidation.isValid then (c2, .error "Invalid volunteer")
          else if hasNullValues donation then (c2, .error "Contains null values")
          else if donation.amount.leZero then (c2, .error "Invalid donation amount")
          else (c2 ++ [Call.insertDonation donation], insertDonation db donation)

/-- The object `rejectedDonations`: group leader key and the rows rejected for it, in the order
in which the buckets were created. The keys are the texts of numbers, which are distinct for
distinct numbers, so the number stands for the key. -/
abbrev Buckets := List (Number × List Row)

/-- The rows of the bucket `rejectedDonations[key]` (empty when there is none). -/
def bucket (b : Buckets) (key : Number) : List Row :=
  match b.lookup key with
  | some rows => rows
  | none => []

/-- Lines 156-159: create the bucket of `key` if there is none, then push the row. -/
def pushRejected (b : Buckets) (key : Number) (row : Row) : Buckets :=
  if (b.lookup key).isSome then
    b.map (fun e => if e.1 = key then (e.1, e.2 ++ [row]) else e)
  else b ++ [(key, [row])]

/-- State of one call of `processDonations` while it loops over the rows: the database, the
buckets, the calls made on the connection and the messages written by lines 148-150. -/
structure LoopState where
  db : Database
  rejectedDonations : Buckets
  calls : List Call
  errors : List String

/-- Lines 101-160: one iteration of the loop over the rows. The `error` result is an
exception that nothing catches, with the state reached when it is thrown: the TypeError of a
row without `donor_name`, or the error of `getGroupLeader` inside the `catch` block. -/
def processRow (st : LoopState) (row : Row) : Except LoopState LoopState :=
  match parseDonation row with
  | none => .error st
  | some donation =>
    match tryBlock st.db donation with
    | (calls, .ok db) =>
      .ok { st with db := db, calls := st.calls ++ calls }
    | (calls, .error message) =>
      let st1 : LoopState :=
        { st with
          calls := st.calls ++ calls ++ [Call.getGroupLeader donation.volunteer]
          errors := st.errors ++ [message] }
      match getGroupLeader st.db donation.volunteer with
      | .error _ => .error st1
      | .ok groupLeader =>
        .ok { st1 with
          rejectedDonations := pushRejected st.rejectedDonations groupLeader row }

/-- Lines 100-161: the loop over the rows of one file; it ends at the first row that throws
an exception that nothing catches. -/
def processRows (st : LoopState) : List Row → Except LoopState LoopState
  | [] => .ok st
  | row :: rows =>
    match processRow st row with
    | .error st1 => .error st1
    | .ok st1 => processRows st1 rows

/-- Whether a step ended with an exception that nothing catches. -/
def threw (r : Except LoopState LoopState) : Bool :=
  match r with
  | .error _ => true
  | .ok _ => false

/-- The state a step ended in. -/
def stateOf (r : Except LoopState LoopState) : LoopState :=
  match r with
  | .error st => st
  | .ok st => st

/-- The file system: path and content, the most recent write of a path first. -/
abbrev Files := List (String × String)

/-- The call `fs.writeFileSync(path, content)`: the content of the path is replaced. -/
def writeFileSync (files : Files) (path content : String) : Files := (path, content) :: files

/-- Content of a path, if it was written. -/
def readFile (files : Files) (path : String) : Option String := files.lookup path

/-- Line 168: one line of a rejection file. -/
def csvLine (row : Row) : String := join "," row.values

/-- Lines 167-169: the content of a rejection file. -/
def csvContent (rejections : List Row) : String := join "\n" (rejections.map csvLine)

/-- Lines 170-173: the path of the rejection file of a group leader key (relative to the
directory of the script). -/
def rejectionFilePath (groupLeaderId : Number) : String :=
  "rejected_" ++ groupLeaderId.toStr ++ ".csv"

/-- Lines 164-175: write one file per bucket. Distinct keys give distinct paths, so the
content of every path after the loop does not depend on the order of the buckets. -/
def writeRejections (files : Files) : Buckets → Files
  | [] => files
  | (groupLeaderId, rejections) :: rest =>
    writeRejections (writeFileSync files (rejectionFilePath groupLeaderId) (csvContent rejections)) rest

/-- What the script has done to its surroundings: the database and the files written. -/
structure World where
  db : Database
  files : Files
  calls : List Call
  errors : List String

/-- How a call of `processDonations` ends: the promise resolves; the read stream emits an
`error` event, which has no listener (the listener of line 179 is on the parser) and ends the
process; or the handler of the end of the stream throws, the promise never settles and the
rejection files of that call are not written. -/
inductive Completion where
  | resolved
  | unhandledError
  | uncaught
  deriving DecidableEq

/-- Lines 89-183: `processDonations(connection, filePath)`. `rows` is what the CSV reader
delivers for the file, `none` when the file cannot be read. The buckets start empty on every
call. -/
def processDonations (w : World) (rows : Option (List Row)) : World × Completion :=
  match rows with
  | none => (w, .unhandledError)
  | some rows =>
    match processRows
        { db := w.db, rejectedDonations := [], calls := w.calls, errors := w.errors } rows with
    | .error st =>
      ({ db := st.db, files := w.files, calls := st.calls, errors := st.errors }, .uncaught)
    | .ok st =>
      ({ db := st.db, files := writeRejections w.files st.rejectedDonations,
         calls := st.calls, errors := st.errors }, .resolved)

/-- Lines 192-195: the loop of `main` over the file names; it stops at the first call that
does not resolve. -/
def processFiles (csv : String → Option (List Row)) (w : World) : List String → World × Completion
  | [] => (w, .resolved)
  | file :: rest =>
    match processDonations w (csv file) with
    | (w1, .resolved) => processFiles csv w1 rest
    | (w1, c) => (w1, c)

/-- Line 191. -/
def csvFiles : List String := ["donation1.csv", "donation2.csv", "donation3.csv"]

/-- Lines 185-210: `main`, for a database and the parsed content of the CSV files. -/
def main (db : Database) (csv : String → Option (List Row)) : World × Completion :=
  processFiles csv { db := db, files := [], calls := [], errors := [] } csvFiles

/-! ### Concrete inputs -/

/-- A database with two addresses and two volunteers: volunteer 7 has no group leader,
volunteer 8 has group leader 7; every INSERT the driver sends is accepted. -/
def sampleDb : Database :=
  { address := [10, 11]
    volunteer := [⟨7, none⟩, ⟨8, some 7⟩]
    donation := []
    accepts := fun _ _ => true }

/-- A row with an empty `address_id`, for volunteer 7. -/
def rowEmptyAddress : Row :=
  [("donation_id", "1"), ("donor_name", "Ann Lee"), ("address_id", ""),
   ("donation_date", "2024-01-01"), ("donation_amount", "5.00"), ("volunteer_id", "7")]

/-- A row that passes the first five checks and whose amount is not a number. -/
def rowAmountNotNumber : Row :=
  [("donation_id", "2"), ("donor_name", "Bob Ray"), ("address_id", "10"),
   ("donation_date", "2024-01-02"), ("donation_amount", "abc"), ("volunteer_id", "8")]

/-- A row that passes the first five checks and whose amount is negative, for volunteer 7. -/
def rowNegativeAmount : Row :=
  [("donation_id", "3"), ("donor_name", "Cy Doe"), ("address_id", "10"),
   ("donation_date", "2024-01-03"), ("donation_amount", "-5.00"), ("volunteer_id", "7")]

/-- A row with an empty `address_id` and no `donor_name` cell. -/
def rowNoDonorName : Row :=
  [("donation_id", "5"), ("address_id", ""), ("donation_date", "2024-01-05"),
   ("donation_amount", "5.00"), ("volunteer_id", "7")]

/-- A row with an existing address and an empty `volunteer_id`. -/
def rowEmptyVolunteer : Row :=
  [("donation_id", "6"), ("donor_name", "Eve Hill"), ("address_id", "10"),
   ("donation_date", "2024-01-06"), ("donation_amount", "5.00"), ("volunteer_id", "")]

/-- The content of the three CSV files: the first and the second each hold one row that is
rejected for volunteer 7, the third is empty. -/
def sampleCsv (file : String) : Option (List Row) :=
  if file = "donation1.csv" then some [rowEmptyAddress]
  else if file = "donation2.csv" then some [rowNegativeAmount]
  else some []

end DonationLoader

/-! ## The address refresh (`src/addressScript/addressRefresh.js`) -/

namespace AddressRefresh

open JS

/-- One record of the SQL Server recordset (lines 29-41). -/
structure SqlAddress where
  StreetNumber : Value
  UnitNumber : Value
  StreetName : Value
  StreetType : Value
  StreetDirection : Value
  PostalCode : Value
  City : Value
  Province : Value
  deriving DecidableEq

/-- The object returned by `transformAddress`. -/
structure Address where
  streetNumber : Value
  unitNum : Value
  streetName : Value
  streetType : Value
  streetDirection : Value
  postalCode : Value
  city : Value
  province : Value
  deriving DecidableEq

/-- One row of the Oracle table Address, as `SELECT *` returns it in object format.
`ADDRESS_ID` is the numeric key column: it is never NULL and holds an integer that binary64
represents exactly. -/
structure OracleAddress where
  ADDRESS_ID : Int
  UNIT_NUM : Value
  STREET_NUMBER : Value
  STREET_NAME : Value
  STREET_TYPE : Value
  STREET_DIRECTION : Value
  POSTAL_CODE : Value
  CITY : Value
  PROVINCE : Value
  deriving DecidableEq

/-- The expression `n || null` on the result of `parseInt`. -/
def numberOrNull : Number → Value
  | .nan => .null
  | .int z => if z ≠ 0 then .num z else .null

/-- Lines 51-62. -/
def transformAddress (sqlAddress : SqlAddress) : Address :=
  { streetNumber := numberOrNull (parseInt sqlAddress.StreetNumber.toStr 10)
    unitNum := sqlAddress.UnitNumber.or .null
    streetName := sqlAddress.StreetName
    streetType := sqlAddress.StreetType.or (.str "UNKNOWN")
    streetDirection := sqlAddress.StreetDirection.or .null
    postalCode := sqlAddress.PostalCode.or (.str "UNKNOWN")
    city := sqlAddress.City
    province := sqlAddress.Province }

/-- What a column holds after a value is bound to it: `undefined` is bound as NULL and Oracle
stores the empty string as NULL; every other value is read back as it was bound. -/
def stored : Value → Value
  | .undefined => .null
  | .str s => if s = "" then .null else .str s
  | v => v

/-- The row that holds the bound values of an address under the given id (the column list of
lines 76-85 and 103-109). -/
def rowOf (id : Int) (address : Address) : OracleAddress :=
  { ADDRESS_ID := id
    UNIT_NUM := stored address.unitNum
    STREET_NUMBER := stored address.streetNumber
    STREET_NAME := stored address.streetName
    STREET_TYPE := stored address.streetType
    STREET_DIRECTION := stored address.streetDirection
    POSTAL_CODE := stored address.postalCode
    CITY := stored address.city
    PROVINCE := stored address.province }

/-- Line 136: the key of an existing Oracle row. -/
def targetKey (U : CaseTable) (a : OracleAddress) : String :=
  toLowerCase U (a.STREET_NUMBER.toStr ++ a.STREET_NAME.toStr ++ a.POSTAL_CODE.toStr)

/-- Lines 157-158: the key of an incoming SQL Server record. -/
def sourceKey (U : CaseTable) (sqlAddress : SqlAddress) : String :=
  toLowerCase U (sqlAddress.StreetNumber.toStr ++ sqlAddress.StreetName.toStr ++
    sqlAddress.PostalCode.toStr)

/-- A JavaScript `Map` from keys to Oracle rows: its entries in insertion order. -/
abbrev AddressMap := List (String × OracleAddress)

/-- The method `Map.prototype.set`: the value of a key that is present is replaced in place, a
new key is added at the end. -/
def mapSet (m : AddressMap) (key : String) (a : OracleAddress) : AddressMap :=
  if (m.lookup key).isSome then m.map (fun e => if e.1 = key then (key, a) else e)
  else m ++ [(key, a)]

/-- The constructor `new Map(entries)`. -/
def newMap (entries : List (String × OracleAddress)) : AddressMap :=
  entries.foldl (fun m e => mapSet m e.1 e.2) []

/-- The method `Map.prototype.get`; `none` is `undefined`. -/
def mapGet (m : AddressMap) (key : String) : Option OracleAddress := m.lookup key

/-- The method `Map.prototype.has`. -/
def mapHas (m : AddressMap) (key : String) : Bool := (m.lookup key).isSome

/-- Lines 134-139. -/
def existingAddressMap (U : CaseTable) (existingOracleAddresses : List OracleAddress) :
    AddressMap :=
  newMap (existingOracleAddresses.map (fun a => (targetKey U a, a)))

/-- Lines 73-88: the UPDATE either rewrites every row with the given id or throws. `fail`
tells whether the statement fails. -/
def updateOracleAddress (table : List OracleAddress) (fail : Bool) (address : Address)
    (oracleId : Int) : Except String (List OracleAddress) :=
  if fail then .error "update failed"
  else .ok (table.map (fun r => if r.ADDRESS_ID = oracleId then rowOf oracleId address else r))

/-- The result of `SELECT MAX(ADDRESS_ID) FROM Address`; `none` is NULL (empty table). -/
def maxAddressId : List OracleAddress → Option Int
  | [] => none
  | r :: rs => some (rs.foldl (fun m x => max m x.ADDRESS_ID) r.ADDRESS_ID)

/-- Line 95: `(MAX_ID || 0) + 1`, an addition of binary64 numbers. -/
def nextAddressId (table : List OracleAddress) : Int :=
  match maxAddressId table with
  | some m => roundDouble ((if m ≠ 0 then m else 0) + 1)
  | none => roundDouble (0 + 1)

/-- Lines 91-96: the query throws when `queryFail` says so, otherwise the next id is
returned. -/
def getNextAddressId (table : List OracleAddress) (queryFail : Bool) : Except String Int :=
  if queryFail then .error "query failed" else .ok (nextAddressId table)

/-- Lines 99-113: the id is queried, then the INSERT either adds the row or throws; when the
query of the id throws, the INSERT is not issued. The result is the id, if the query gave
one, and the table after the INSERT or the error. -/
def insertOracleAddress (table : List OracleAddress) (queryFail fail : Bool)
    (address : Address) : Option Int × Except String (List OracleAddress) :=
  match getNextAddressId table queryFail with
  | .error message => (none, .error message)
  | .ok nextId =>
    if fail then (some nextId, .error "insert failed")
    else (some nextId, .ok (table ++ [rowOf nextId address]))

/-- What the run does that can be observed from outside: the batch announcement of lines
148-152, the write statements with their bound values and whether they succeeded, the
record given up because the query of its id threw, and the commits. -/
inductive Event where
  | processing (batch total : Nat)
  | update (id : Int) (address : Address) (ok : Bool)
  | insert (id : Int) (address : Address) (ok : Bool)
  | noId (address : Address)
  | commit
  deriving DecidableEq

/-- The variables of a run: the table as the session sees it, the three counters and the
events so far. -/
structure RunState where
  table : List OracleAddress
  updateCount : Nat
  insertCount : Nat
  errorCount : Nat
  events : List Event

/-- Lines 155-177: the body of the loop over a batch, for one record. `fail` tells whether
the write statement issued for this record fails, `queryFail` whether the query of the next
id does. -/
def processAddress (U : CaseTable) (m : AddressMap) (fail queryFail : Bool) (st : RunState)
    (sqlAddress : SqlAddress) : RunState :=
  let transformedAddress := transformAddress sqlAddress
  let key := sourceKey U sqlAddress
  if mapHas m key then
    match mapGet m key with
    | some existingAddress =>
      match updateOracleAddress st.table fail transformedAddress existingAddress.ADDRESS_ID with
      | .ok table =>
        { st with
          table := table
          updateCount := st.updateCount + 1
          events := st.events ++ [.update existingAddress.ADDRESS_ID transformedAddress true] }
      | .error _ =>
        { st with
          errorCount := st.errorCount + 1
          events := st.events ++ [.update existingAddress.ADDRESS_ID transformedAddress false] }
    | none => { st with errorCount := st.errorCount + 1 }
  else
    match insertOracleAddress st.table queryFail fail transformedAddress with
    | (some nextId, .ok table) =>
      { st with
        table := table
        insertCount := st.insertCount + 1
        events := st.events ++ [.insert nextId transformedAddress true] }
    | (some nextId, .error _) =>
      { st with
        errorCount := st.errorCount + 1
        events := st.events ++ [.insert nextId transformedAddress false] }
    | (none, _) =>
      { st with
        errorCount := st.errorCount + 1
        events := st.events ++ [.noId transformedAddress] }

/-- Lines 154-178: the loop over one batch; `index` is the position of the first record of
the list in the whole input, `fails` the pattern of failing writes and `queryFails` the
pattern of failing id queries, by position. -/
def processBatch (U : CaseTable) (m : AddressMap) (fails queryFails : Nat → Bool) :
    Nat → RunState → List SqlAddress → RunState
  | _, st, [] => st
  | index, st, sqlAddress :: rest =>
    processBatch U m fails queryFails (index + 1)
      (processAddress U m (fails index) (queryFails index) st sqlAddress) rest

/-- Line 145. -/
def batchSize : Nat := 1000

/-- The call `oracleConnection.commit()`. -/
def commit (st : RunState) : RunState := { st with events := st.events ++ [.commit] }

/-- Lines 146-187: the loop `for (let i = 0; i < sqlAddresses.length; i += batchSize)`,
run for at most `fuel` iterations from the given `i`. -/
def batchLoop (U : CaseTable) (m : AddressMap) (fails queryFails : Nat → Bool)
    (sqlAddresses : List SqlAddress) : Nat → Nat → RunState → RunState
  | 0, _, st => st
  | fuel + 1, i, st =>
    if i < sqlAddresses.length then
      let batch := (sqlAddresses.drop i).take batchSize
      let st1 :=
        { st with
          events := st.events ++
            [.processing (i / batchSize + 1) ((sqlAddresses.length + batchSize - 1) / batchSize)] }
      let st2 := processBatch U m fails queryFails i st1 batch
      let st3 := if i % (batchSize * 10) = 0 then commit st2 else st2
      batchLoop U m fails queryFails sqlAddresses fuel (i + batchSize) st3
    else st

/-- Lines 115-192: `refreshAddressTable`, for the content of the Oracle table, the records
extracted from SQL Server, the pattern of failing write statements and the pattern of
failing id queries. Connection failures and failing commits (the outer `catch`) are not part
of the model. Every iteration of the batch loop advances `i` by 1000, so
`sqlAddresses.length` iterations are enough. -/
def refreshAddressTable (U : CaseTable) (existingOracleAddresses : List OracleAddress)
    (sqlAddresses : List SqlAddress) (fails queryFails : Nat → Bool) : RunState :=
  let m := existingAddressMap U existingOracleAddresses
  let st0 : RunState :=
    { table := existingOracleAddresses, updateCount := 0, insertCount := 0, errorCount := 0,
      events := [] }
  commit (batchLoop U m fails queryFails sqlAddresses sqlAddresses.length 0 st0)

/-! ### Reading a trace -/

/-- Whether an event stands for one record of the input: a write statement, or a record given
up because the query of its id threw. -/
def Event.isRecord : Event → Bool
  | .update _ _ _ => true
  | .insert _ _ _ => true
  | .noId _ => true
  | _ => false

/-- The write statement behind an event, if it is one: the address bound and whether the
statement succeeded. -/
def Event.write : Event → Option (Address × Bool)
  | .update _ address ok => some (address, ok)
  | .insert _ address ok => some (address, ok)
  | _ => none

/-- The addresses of the write statements of a trace, in order. -/
def attempted (events : List Event) : List Address :=
  events.filterMap (fun e => e.write.map Prod.fst)

/-- Whether each write statement of a trace succeeded, in order. -/
def outcomes (events : List Event) : List Bool :=
  events.filterMap (fun e => e.write.map Prod.snd)

/-- Whether an event is an UPDATE that succeeded. -/
def Event.isUpdated : Event → Bool
  | .update _ _ ok => ok
  | _ => false

/-- Whether an event is an INSERT that succeeded. -/
def Event.isInserted : Event → Bool
  | .insert _ _ ok => ok
  | _ => false

/-- Whether an event is a write statement that failed or a record given up for want of an
id. -/
def Event.isError : Event → Bool
  | .update _ _ ok => !ok
  | .insert _ _ ok => !ok
  | .noId _ => true
  | _ => false

/-- The id of an INSERT that succeeded, if the event is one. -/
def Event.insertedId : Event → Option Int
  | .insert id _ true => some id
  | _ => none

/-- The address bound by an INSERT, if the event is one. -/
def Event.insertAddress : Event → Option Address
  | .insert _ address _ => some address
  | _ => none

/-- The addresses bound by the INSERT statements of a trace, in order. -/
def insertAddresses (events : List Event) : List Address :=
  events.filterMap Event.insertAddress

/-- The ids carried by the INSERT statements of a trace that succeeded, in order. -/
def insertedIds (events : List Event) : List Int := events.filterMap Event.insertedId

/-- What kind of event an event is: a batch announcement with its numbers, a write
statement, a record given up for want of an id, or a commit. -/
inductive Shape where
  | processing (batch total : Nat)
  | write
  | noId
  | commit
  deriving DecidableEq

/-- The kind of an event. -/
def Event.shape : Event → Shape
  | .processing batch total => .processing batch total
  | .update _ _ _ => .write
  | .insert _ _ _ => .write
  | .noId _ => .noId
  | .commit => .commit

/-- The kinds of the events of a trace, in order. -/
def shapes (events : List Event) : List Shape := events.map Event.shape

/-! ### The key as the specification words it -/

/-- The segment a field contributes to the key in the words of the specification: a missing
(`null` or `undefined`) field contributes the empty string. -/
def specSegment : Value → String
  | .undefined => ""
  | .null => ""
  | .num n => showInt n
  | .str s => s

/-- Whether a field is missing: `null` or `undefined`. -/
def missing : Value → Bool
  | .undefined => true
  | .null => true
  | _ => false

/-- The key of the specification: the lower-cased concatenation of the segments of street
number, street name and postal code. -/
def specKey (U : CaseTable) (number name postal : Value) : String :=
  toLowerCase U (specSegment number ++ specSegment name ++ specSegment postal)

/-- The segment a field contributes to the key, amended: a `null` field contributes the text
`null` and an `undefined` field the text `undefined`. -/
def amendedSegment : Value → String
  | .undefined => "undefined"
  | .null => "null"
  | .num n => showInt n
  | .str s => s

/-- The key, amended: the lower-cased concatenation of the amended segments of street number,
street name and postal code. -/
def amendedKey (U : CaseTable) (number name postal : Value) : String :=
  toLowerCase U (amendedSegment number ++ amendedSegment name ++ amendedSegment postal)

/-! ### Concrete inputs -/

/-- A source record with every key field present. -/
def sampleAddress : SqlAddress :=
  ⟨.num 100, .null, .str "Main St", .str "St", .null, .str "K1A 0B1", .str "Ottawa", .str "ON"⟩

/-- The same record without a postal code. -/
def sampleAddressNoPostal : SqlAddress :=
  ⟨.num 100, .null, .str "Main St", .str "St", .null, .null, .str "Ottawa", .str "ON"⟩

/-- An existing row with another key whose id is `2 ^ 53`. -/
def rowAtLimit : OracleAddress :=
  ⟨9007199254740992, .null, .num 7, .str "Elm St", .str "St", .null, .str "K2B 1C2",
    .str "Ottawa", .str "ON"⟩

end AddressRefresh

/-! ## The sibling refresh (`addressRefresh.js`) -/

namespace LegacyRefresh

open JS

/-- One record of the SQL Server recordset, with the columns the script reads. -/
structure SqlServerAddress where
  AddressLine1 : Value
  City : Value
  Province : Value
  PostalCode : Value
  deriving DecidableEq

/-- One row of the Oracle table in array format: `row[0]` to `row[4]`. -/
structure OracleRow where
  AddressID : Int
  AddressLine1 : Value
  City : Value
  Province : Value
  PostalCode : Value
  deriving DecidableEq

/-- The statements the script issues. -/
inductive Event where
  | insert (id : Int) (address : SqlServerAddress)
  | update (id : Int) (address : SqlServerAddress)
  | commit
  | rollback
  deriving DecidableEq

/-- Line 43: the `Map` from `row[1]` to the row; a later row with the same key replaces the
earlier one. -/
def existingAddressMap (rows : List OracleRow) (key : Value) : Option OracleRow :=
  (rows.reverse.find? (fun r => r.AddressLine1 = key))

/-- Lines 98-101: `(MAX(AddressID) || 0) + 1`, an addition of binary64 numbers. -/
def getNextAddressId (table : List OracleRow) : Int :=
  match table with
  | [] => roundDouble (0 + 1)
  | r :: rs =>
    let m := rs.foldl (fun m x => max m x.AddressID) r.AddressID
    roundDouble ((if m ≠ 0 then m else 0) + 1)

/-- Lines 47-80: the loop over the records. `existing` is the snapshot the map was built
from, `fails` the pattern of failing statements by position; a failing statement throws out
of the loop, which is the `error` result with the events up to that point. -/
def processAddresses (existing : List OracleRow) (fails : Nat → Bool) :
    Nat → List OracleRow → List Event → List SqlServerAddress →
      Except (List Event) (List OracleRow × List Event)
  | _, table, events, [] => .ok (table, events)
  | index, table, events, address :: rest =>
    match existingAddressMap existing address.AddressLine1 with
    | none =>
      let nextAddressId := getNextAddressId table
      if fails index then .error events
      else
        processAddresses existing fails (index + 1)
          (table ++ [⟨nextAddressId, address.AddressLine1, address.City, address.Province,
            address.PostalCode⟩])
          (events ++ [.insert nextAddressId address]) rest
    | some existingAddress =>
      if existingAddress.City ≠ address.City ∨ existingAddress.Province ≠ address.Province ∨
          existingAddress.PostalCode ≠ address.PostalCode then
        if fails index then .error events
        else
          processAddresses existing fails (index + 1)
            (table.map (fun r =>
              if r.AddressID = existingAddress.AddressID then
                { r with City := address.City, Province := address.Province,
                         PostalCode := address.PostalCode }
              else r))
            (events ++ [.update existingAddress.AddressID address]) rest
      else processAddresses existing fails (index + 1) table events rest

/-- Lines 30-96: `refreshOracleAddresses`; when a statement throws, the transaction is rolled
back and the table is as it was. -/
def refreshOracleAddresses (table : List OracleRow) (sqlServerAddresses : List SqlServerAddress)
    (fails : Nat → Bool) : List OracleRow × List Event :=
  match processAddresses table fails 0 table [] sqlServerAddresses with
  | .ok (table1, events) => (table1, events ++ [.commit])
  | .error events => (table, events ++ [.rollback])

end LegacyRefresh

/-! ## Association lists -/

theorem lookup_cons_ite {α β : Type} [DecidableEq α] (k k1 : α) (v : β) (es : List (α × β)) :
    List.lookup k ((k1, v) :: es) = if k = k1 then some v else List.lookup k es := by
  by_cases h : k = k1
  · subst h; simp
  · have h2 : (k == k1) = false := by simpa using h
    simp [List.lookup_cons, h, h2]

theorem lookup_map_update {α β : Type} [DecidableEq α] (g : β → β) (key k : α)
    (b : List (α × β)) :
    List.lookup k (b.map (fun e => if e.1 = key then (e.1, g e.2) else e)) =
      if k = key then (List.lookup key b).map g else List.lookup k b := by
  induction b with
  | nil => simp
  | cons e rest ih =>
    obtain ⟨k1, v⟩ := e
    by_cases h1 : k1 = key
    · subst h1
      by_cases h : k = k1
      · subst h; simp
      · simp [lookup_cons_ite, h, ih]
    · by_cases h : k = key
      · subst h
        have h3 : ¬ k = k1 := fun h => h1 h.symm
        simp [lookup_cons_ite, h1, h3, ih]
      · simp [lookup_cons_ite, h1, h, ih]

theorem lookup_append_new {α β : Type} [DecidableEq α] (key k : α) (v : β)
    (b : List (α × β)) (hnew : List.lookup key b = none) :
    List.lookup k (b ++ [(key, v)]) = if k = key then some v else List.lookup k b := by
  rw [List.lookup_append]
  by_cases h : k = key
  · subst h; simp [hnew]
  · simp [lookup_cons_ite, h]

/-! ## Theorems: JavaScript primitives -/

namespace JS

/-- An integer of magnitude below `2 ^ 53` is a binary64 value. -/
theorem roundDouble_exact (z : Int) (h1 : -9007199254740992 < z) (h2 : z < 9007199254740992) :
    roundDouble z = z := by
  have h : z.natAbs < 2 ^ 53 := by
    have : (2 : Nat) ^ 53 = 9007199254740992 := by norm_num
    omega
  unfold roundDouble roundNat
  simp only [h, if_true]
  split <;> omega

end JS

/-! ## Theorems: donation loader -/

namespace DonationLoader

open JS

/-- C1: two rows for which the failure of the first failing check is not what is reported.
A row that passes checks 1 to 5 and whose amount is not a number fails check 6 (amount
positive), yet `insertDonation` is called and the message reported is the one of the driver,
not "Invalid donation amount". A row with an empty `address_id` and no `donor_name` fails
check 1, yet the iteration throws before the `try`: no check runs, no call is made and
nothing is reported. A row with an empty `address_id` and a `donor_name` is reported as "Empty
address_id" and `validateAddress` is not called for it. -/
theorem first_failing_check_not_reported :
    ((parseDonation rowAmountNotNumber).map (fun d => d.amount) = some .nan ∧
      (stateOf (processRow ⟨sampleDb, [], [], []⟩ rowAmountNotNumber)).errors =
        [nanBindError] ∧
      (stateOf (processRow ⟨sampleDb, [], [], []⟩ rowAmountNotNumber)).calls =
        [Call.validateAddress (.int 10), Call.validateVolunteer (.int 8),
          Call.insertDonation
            ⟨.int 2, "Bob", some "Ray", some (.int 10), some "2024-01-02", .nan, .int 8⟩,
          Call.getGroupLeader (.int 8)]) ∧
    (rowNoDonorName.get "address_id" = some "" ∧
      threw (processRow ⟨sampleDb, [], [], []⟩ rowNoDonorName) = true ∧
      (stateOf (processRow ⟨sampleDb, [], [], []⟩ rowNoDonorName)).errors = [] ∧
      (stateOf (processRow ⟨sampleDb, [], [], []⟩ rowNoDonorName)).calls = []) ∧
    ((stateOf (processRow ⟨sampleDb, [], [], []⟩ rowEmptyAddress)).errors =
        ["Empty address_id"] ∧
      (stateOf (processRow ⟨sampleDb, [], [], []⟩ rowEmptyAddress)).calls =
        [Call.getGroupLeader (.int 7)]) := by
  refine ⟨⟨by decide, by decide, by decide⟩, ⟨by decide, by decide, by decide, by decide⟩,
    by decide, by decide⟩

/-- C2: a row that passes the first five checks and whose `donation_amount` is not a number
passes the amount check: `insertDonation` is called with the amount NaN. The driver refuses
the NaN bind, so the row is rejected with the message of the driver, not with "Invalid
donation amount"; it is routed to the bucket of group leader 7 and not written. The same kind
of row with amount -5.00 is rejected by the amount check without a call of `insertDonation`. -/
theorem nan_amount_reaches_insertDonation :
    (parseDonation rowAmountNotNumber).map (fun d => d.amount) = some .nan ∧
      (stateOf (processRow ⟨sampleDb, [], [], []⟩ rowAmountNotNumber)).calls =
        [Call.validateAddress (.int 10), Call.validateVolunteer (.int 8),
          Call.insertDonation
            ⟨.int 2, "Bob", some "Ray", some (.int 10), some "2024-01-02", .nan, .int 8⟩,
          Call.getGroupLeader (.int 8)] ∧
      (stateOf (processRow ⟨sampleDb, [], [], []⟩ rowAmountNotNumber)).errors =
        [nanBindError] ∧
      (stateOf (processRow ⟨sampleDb, [], [], []⟩ rowAmountNotNumber)).rejectedDonations =
        [(.int 7, [rowAmountNotNumber])] ∧
      (stateOf (processRow ⟨sampleDb, [], [], []⟩ rowAmountNotNumber)).db.donation = [] ∧
      (stateOf (processRow ⟨sampleDb, [], [], []⟩ rowNegativeAmount)).calls =
        [Call.validateAddress (.int 10), Call.validateVolunteer (.int 7),
          Call.getGroupLeader (.int 7)] ∧
      (stateOf (processRow ⟨sampleDb, [], [], []⟩ rowNegativeAmount)).errors =
        ["Invalid donation amount"] ∧
      (stateOf (processRow ⟨sampleDb, [], [], []⟩ rowNegativeAmount)).rejectedDonations =
        [(.int 7, [rowNegativeAmount])] := by
  refine ⟨by decide, by decide, by decide, by decide, by decide, by decide, by decide, ?_⟩
  decide

/-- C3: a row with an existing address and an empty `volunteer_id` is rejected ("Empty
volunteer_id"), but `getGroupLeader` is then called with NaN inside the `catch` block and the
driver throws: the row is pushed to no bucket. The exception is caught by nothing, so the
call of `processDonations` never resolves and writes no rejection file, not even for a row
rejected before it. -/
theorem empty_volunteer_row_is_not_routed :
    (parseDonation rowEmptyVolunteer).map (fun d => d.volunteer) = some .nan ∧
      threw (processRow ⟨sampleDb, [], [], []⟩ rowEmptyVolunteer) = true ∧
      (stateOf (processRow ⟨sampleDb, [], [], []⟩ rowEmptyVolunteer)).errors =
        ["Empty volunteer_id"] ∧
      (stateOf (processRow ⟨sampleDb, [], [], []⟩ rowEmptyVolunteer)).calls =
        [Call.validateAddress (.int 10), Call.getGroupLeader .nan] ∧
      (stateOf (processRow ⟨sampleDb, [], [], []⟩ rowEmptyVolunteer)).rejectedDonations = [] ∧
      (processDonations ⟨sampleDb, [], [], []⟩
        (some [rowNegativeAmount, rowEmptyVolunteer])).2 = .uncaught ∧
      (processDonations ⟨sampleDb, [], [], []⟩
        (some [rowNegativeAmount, rowEmptyVolunteer])).1.errors =
          ["Invalid donation amount", "Empty volunteer_id"] ∧
      (processDonations ⟨sampleDb, [], [], []⟩
        (some [rowNegativeAmount, rowEmptyVolunteer])).1.files = [] := by
  refine ⟨by decide, by decide, by decide, by decide, by decide, by decide, by decide, ?_⟩
  decide

/-- C4: when two of the CSV files each have a row rejected for the same group leader, the
file written for the second replaces the one written for the first: both rows were rejected,
and the final `rejected_7.csv` holds only the second. -/
theorem later_file_replaces_rejections :
    (main sampleDb sampleCsv).2 = .resolved ∧
      (main sampleDb sampleCsv).1.errors = ["Empty address_id", "Invalid donation amount"] ∧
      (main sampleDb sampleCsv).1.db.donation = [] ∧
      csvLine rowEmptyAddress = "1,Ann Lee,,2024-01-01,5.00,7" ∧
      readFile (main sampleDb sampleCsv).1.files "rejected_7.csv" =
        some "3,Cy Doe,10,2024-01-03,-5.00,7" := by
  decide

end DonationLoader

/-! ## Theorems: address refresh -/

namespace AddressRefresh

open JS

theorem mapGet_of_mapHas (m : AddressMap) (key : String) (h : mapHas m key = true) :
    ∃ a, mapGet m key = some a := by
  unfold mapHas at h
  unfold mapGet
  exact Option.isSome_iff_exists.mp h

/-- The state after one record: an UPDATE for a key in the index; for a key that is not in
it, an INSERT with the next id, or the record given up when the query of the id throws. -/
theorem processAddress_eq (U : CaseTable) (m : AddressMap) (fail queryFail : Bool)
    (st : RunState) (a : SqlAddress) :
    (∃ e, mapHas m (sourceKey U a) = true ∧ mapGet m (sourceKey U a) = some e ∧
      processAddress U m fail queryFail st a =
        { table := if fail then st.table else
            st.table.map (fun r =>
              if r.ADDRESS_ID = e.ADDRESS_ID then rowOf e.ADDRESS_ID (transformAddress a) else r)
          updateCount := if fail then st.updateCount else st.updateCount + 1
          insertCount := st.insertCount
          errorCount := if fail then st.errorCount + 1 else st.errorCount
          events := st.events ++ [.update e.ADDRESS_ID (transformAddress a) (!fail)] }) ∨
    (mapHas m (sourceKey U a) = false ∧ queryFail = false ∧
      processAddress U m fail queryFail st a =
        { table := if fail then st.table else
            st.table ++ [rowOf (nextAddressId st.table) (transformAddress a)]
          updateCount := st.updateCount
          insertCount := if fail then st.insertCount else st.insertCount + 1
          errorCount := if fail then st.errorCount + 1 else st.errorCount
          events := st.events ++
            [.insert (nextAddressId st.table) (transformAddress a) (!fail)] }) ∨
    (mapHas m (sourceKey U a) = false ∧ queryFail = true ∧
      processAddress U m fail queryFail st a =
        { table := st.table
          updateCount := st.updateCount
          insertCount := st.insertCount
          errorCount := st.errorCount + 1
          events := st.events ++ [.noId (transformAddress a)] }) := by
  cases hhas : mapHas m (sourceKey U a) with
  | true =>
    left
    obtain ⟨e, he⟩ := mapGet_of_mapHas m _ hhas
    refine ⟨e, rfl, he, ?_⟩
    cases fail <;> simp [processAddress, hhas, he, updateOracleAddress]
  | false =>
    right
    cases queryFail with
    | false =>
      left
      refine ⟨rfl, rfl, ?_⟩
      cases fail <;> simp [processAddress, hhas, insertOracleAddress, getNextAddressId]
    | true =>
      right
      refine ⟨rfl, rfl, ?_⟩
      simp [processAddress, hhas, insertOracleAddress, getNextAddressId]

/-- Induction over the records of a batch: a property indexed by the number of records
processed so far that every record step preserves holds after the batch. -/
theorem processBatch_ind (U : CaseTable) (m : AddressMap) (fails queryFails : Nat → Bool)
    (l : List SqlAddress) (P : Nat → RunState → Prop)
    (hstep : ∀ k st a, l[k]? = some a → P k st →
      P (k + 1) (processAddress U m (fails k) (queryFails k) st a)) :
    ∀ (batch : List SqlAddress) (i : Nat) (st : RunState),
      (∀ j, j < batch.length → l[i + j]? = batch[j]?) → P i st →
      P (i + batch.length) (processBatch U m fails queryFails i st batch) := by
  intro batch
  induction batch with
  | nil => intro i st _ h; simpa [processBatch] using h
  | cons a rest ih =>
    intro i st hb h
    have h0 : l[i]? = some a := by simpa using hb 0 (by simp)
    have h1 := hstep i st a h0 h
    have h2 := ih (i + 1) (processAddress U m (fails i) (queryFails i) st a)
      (fun j hj => by
        have := hb (j + 1) (by simp; omega)
        simpa [Nat.add_assoc, Nat.add_comm 1 j] using this) h1
    have e : i + 1 + rest.length = i + (a :: rest).length := by simp; omega
    rw [← e]
    exact h2

/-- Induction over a whole run of the batch loop with enough fuel: a property indexed by the
number of records processed that is preserved by every record step and by every event that
stands for no record holds for all records at the end. -/
theorem batchLoop_ind (U : CaseTable) (m : AddressMap) (fails queryFails : Nat → Bool)
    (l : List SqlAddress) (P : Nat → RunState → Prop)
    (hlog : ∀ k st e, e.isRecord = false → P k st →
      P k { st with events := st.events ++ [e] })
    (hstep : ∀ k st a, l[k]? = some a → P k st →
      P (k + 1) (processAddress U m (fails k) (queryFails k) st a)) :
    ∀ (fuel i : Nat) (st : RunState), l.length ≤ i + fuel → P (min i l.length) st →
      P l.length (batchLoop U m fails queryFails l fuel i st) := by
  intro fuel
  induction fuel with
  | zero =>
    intro i st hf h
    have : min i l.length = l.length := by omega
    simpa [batchLoop, this] using h
  | succ fuel ih =>
    intro i st hf h
    by_cases hi : i < l.length
    · have hmin : min i l.length = i := by omega
      rw [hmin] at h
      simp only [batchLoop, hi, if_true]
      apply ih
      · simp only [batchSize]; omega
      · have h1 := hlog i st
          (.processing (i / batchSize + 1) ((l.length + batchSize - 1) / batchSize)) rfl h
        have h2 := processBatch_ind U m fails queryFails l P hstep
          ((l.drop i).take batchSize) i _
          (fun j hj => by
            rw [List.getElem?_take, List.getElem?_drop]
            simp only [List.length_take, List.length_drop] at hj
            have : j < batchSize := by omega
            simp [this]) h1
        have hlen : i + ((l.drop i).take batchSize).length = min (i + batchSize) l.length := by
          simp only [List.length_take, List.length_drop]; omega
        rw [hlen] at h2
        split
        · exact hlog _ _ .commit rfl h2
        · exact h2
    · have : min i l.length = l.length := by omega
      rw [this] at h
      simpa [batchLoop, hi] using h

/-- Induction over a whole run of `refreshAddressTable`. -/
theorem refresh_ind (U : CaseTable) (table : List OracleAddress) (l : List SqlAddress)
    (fails queryFails : Nat → Bool) (P : Nat → RunState → Prop)
    (hlog : ∀ k st e, e.isRecord = false → P k st →
      P k { st with events := st.events ++ [e] })
    (hstep : ∀ k st a, l[k]? = some a → P k st →
      P (k + 1)
        (processAddress U (existingAddressMap U table) (fails k) (queryFails k) st a))
    (h0 : P 0 ⟨table, 0, 0, 0, []⟩) :
    P l.length (refreshAddressTable U table l fails queryFails) := by
  unfold refreshAddressTable
  exact hlog _ _ .commit rfl
    (batchLoop_ind U _ fails queryFails l P hlog hstep l.length 0 _ (by omega)
      (by simpa using h0))

theorem not_record_cases (e : Event) (h : e.isRecord = false) :
    e.write = none ∧ e.isUpdated = false ∧ e.isInserted = false ∧ e.isError = false ∧
      e.insertedId = none ∧ e.insertAddress = none := by
  cases e <;> simp_all [Event.isRecord, Event.write, Event.isUpdated, Event.isInserted,
    Event.isError, Event.insertedId, Event.insertAddress]

theorem attempted_append (xs ys : List Event) :
    attempted (xs ++ ys) = attempted xs ++ attempted ys := by
  simp [attempted, List.filterMap_append]

theorem outcomes_append (xs ys : List Event) :
    outcomes (xs ++ ys) = outcomes xs ++ outcomes ys := by
  simp [outcomes, List.filterMap_append]

theorem attempted_single (e : Event) :
    attempted [e] = (e.write.map Prod.fst).toList := by
  cases h : e.write <;> simp [attempted, List.filterMap_cons, h]

theorem outcomes_single (e : Event) :
    outcomes [e] = (e.write.map Prod.snd).toList := by
  cases h : e.write <;> simp [outcomes, List.filterMap_cons, h]

/-- The counters of a run count the successful updates, the successful inserts and the
errors, and their sum is the number of records, whatever writes and id queries fail. -/
theorem counters_of_run (U : CaseTable) (table : List OracleAddress) (l : List SqlAddress)
    (fails queryFails : Nat → Bool) :
    (refreshAddressTable U table l fails queryFails).updateCount =
        (refreshAddressTable U table l fails queryFails).events.countP Event.isUpdated ∧
      (refreshAddressTable U table l fails queryFails).insertCount =
        (refreshAddressTable U table l fails queryFails).events.countP Event.isInserted ∧
      (refreshAddressTable U table l fails queryFails).errorCount =
        (refreshAddressTable U table l fails queryFails).events.countP Event.isError ∧
      (refreshAddressTable U table l fails queryFails).updateCount +
          (refreshAddressTable U table l fails queryFails).insertCount +
          (refreshAddressTable U table l fails queryFails).errorCount = l.length := by
  have key := refresh_ind U table l fails queryFails
    (fun k st =>
      st.updateCount = st.events.countP Event.isUpdated ∧
      st.insertCount = st.events.countP Event.isInserted ∧
      st.errorCount = st.events.countP Event.isError ∧
      st.updateCount + st.insertCount + st.errorCount = k)
    (by
      intro k st e he ⟨h3, h4, h5, h6⟩
      obtain ⟨-, e1, e2, e3, -, -⟩ := not_record_cases e he
      refine ⟨?_, ?_, ?_, h6⟩
      · simpa [List.countP_append, List.countP_cons, e1] using h3
      · simpa [List.countP_append, List.countP_cons, e2] using h4
      · simpa [List.countP_append, List.countP_cons, e3] using h5)
    (by
      intro k st a _ ⟨h3, h4, h5, h6⟩
      rcases processAddress_eq U (existingAddressMap U table) (fails k) (queryFails k) st a with
        ⟨e, -, -, heq⟩ | ⟨-, -, heq⟩ | ⟨-, -, heq⟩
      all_goals
        rw [heq]
        refine ⟨?_, ?_, ?_, ?_⟩
        · cases fails k <;>
            simp [List.countP_append, List.countP_cons, Event.isUpdated, h3]
        · cases fails k <;>
            simp [List.countP_append, List.countP_cons, Event.isInserted, h4]
        · cases fails k <;>
            simp [List.countP_append, List.countP_cons, Event.isError, h5]
        · cases fails k <;> simp <;> omega)
    (by simp)
  simpa using key

/-- C7: in every run, for every pattern of failing writes, the write statements are attempted
for exactly the input records, once each and in input order; the write of record `i` fails
exactly when the pattern says so and later records are still attempted; each record
increments exactly one of the three counters, which count the successful updates, the
successful inserts and the failed writes, and their sum is the number of records. The
counters also count every record once when queries of the next id fail. -/
theorem every_record_attempted_once (U : CaseTable) (table : List OracleAddress)
    (sqlAddresses : List SqlAddress) (fails : Nat → Bool) :
    attempted (refreshAddressTable U table sqlAddresses fails (fun _ => false)).events =
        sqlAddresses.map transformAddress ∧
      outcomes (refreshAddressTable U table sqlAddresses fails (fun _ => false)).events =
        (List.range sqlAddresses.length).map (fun i => !fails i) ∧
      (refreshAddressTable U table sqlAddresses fails (fun _ => false)).updateCount =
        (refreshAddressTable U table sqlAddresses fails (fun _ => false)).events.countP
          Event.isUpdated ∧
      (refreshAddressTable U table sqlAddresses fails (fun _ => false)).insertCount =
        (refreshAddressTable U table sqlAddresses fails (fun _ => false)).events.countP
          Event.isInserted ∧
      (refreshAddressTable U table sqlAddresses fails (fun _ => false)).errorCount =
        (refreshAddressTable U table sqlAddresses fails (fun _ => false)).events.countP
          Event.isError ∧
      (refreshAddressTable U table sqlAddresses fails (fun _ => false)).updateCount +
          (refreshAddressTable U table sqlAddresses fails (fun _ => false)).insertCount +
          (refreshAddressTable U table sqlAddresses fails (fun _ => false)).errorCount =
        sqlAddresses.length ∧
      ∀ queryFails : Nat → Bool,
        (refreshAddressTable U table sqlAddresses fails queryFails).updateCount +
            (refreshAddressTable U table sqlAddresses fails queryFails).insertCount +
            (refreshAddressTable U table sqlAddresses fails queryFails).errorCount =
          sqlAddresses.length := by
  have key := refresh_ind U table sqlAddresses fails (fun _ => false)
    (fun k st =>
      attempted st.events = (sqlAddresses.take k).map transformAddress ∧
      outcomes st.events = (List.range k).map (fun i => !fails i))
    (by
      intro k st e he ⟨h1, h2⟩
      obtain ⟨e0, -⟩ := not_record_cases e he
      refine ⟨?_, ?_⟩
      · simpa [attempted_append, attempted_single, e0] using h1
      · simpa [outcomes_append, outcomes_single, e0] using h2)
    (by
      intro k st a ha ⟨h1, h2⟩
      have htake : sqlAddresses.take (k + 1) = sqlAddresses.take k ++ [a] := by
        rw [List.take_succ, ha]; rfl
      rcases processAddress_eq U (existingAddressMap U table) (fails k) false st a with
        ⟨e, -, -, heq⟩ | ⟨-, -, heq⟩ | ⟨-, hq, -⟩
      · rw [heq]
        refine ⟨?_, ?_⟩
        · simp [attempted_append, attempted_single, Event.write, htake, h1]
        · simp [outcomes_append, outcomes_single, Event.write, List.range_succ, h2]
      · rw [heq]
        refine ⟨?_, ?_⟩
        · simp [attempted_append, attempted_single, Event.write, htake, h1]
        · simp [outcomes_append, outcomes_single, Event.write, List.range_succ, h2]
      · simp at hq)
    (by simp [attempted, outcomes])
  obtain ⟨c1, c2, c3, c4⟩ := counters_of_run U table sqlAddresses fails (fun _ => false)
  refine ⟨by simpa using key.1, by simpa using key.2, c1, c2, c3, c4, ?_⟩
  intro queryFails
  exact (counters_of_run U table sqlAddresses fails queryFails).2.2.2

theorem foldl_max_spec (rs : List OracleAddress) (init : Int) :
    init ≤ rs.foldl (fun m x => max m x.ADDRESS_ID) init ∧
      (∀ r ∈ rs, r.ADDRESS_ID ≤ rs.foldl (fun m x => max m x.ADDRESS_ID) init) ∧
      (rs.foldl (fun m x => max m x.ADDRESS_ID) init = init ∨
        ∃ r ∈ rs, r.ADDRESS_ID = rs.foldl (fun m x => max m x.ADDRESS_ID) init) := by
  induction rs generalizing init with
  | nil => simp
  | cons r rest ih =>
    obtain ⟨h1, h2, h3⟩ := ih (max init r.ADDRESS_ID)
    refine ⟨le_trans (le_max_left _ _) h1, ?_, ?_⟩
    · intro x hx
      rcases List.mem_cons.mp hx with rfl | hx
      · exact le_trans (le_max_right _ _) h1
      · exact h2 x hx
    · simp only [List.foldl_cons]
      rcases h3 with h3 | ⟨x, hx, h3⟩
      · rcases max_choice init r.ADDRESS_ID with hm | hm
        · left; rw [h3, hm]
        · right; exact ⟨r, List.mem_cons_self _ _, by rw [h3, hm]⟩
      · right; exact ⟨x, List.mem_cons_of_mem _ hx, h3⟩

theorem maxAddressId_spec (table : List OracleAddress) (mx : Int)
    (h : maxAddressId table = some mx) :
    (∀ r ∈ table, r.ADDRESS_ID ≤ mx) ∧ ∃ r ∈ table, r.ADDRESS_ID = mx := by
  cases table with
  | nil => simp [maxAddressId] at h
  | cons r rest =>
    simp only [maxAddressId, Option.some.injEq] at h
    subst h
    obtain ⟨h1, h2, h3⟩ := foldl_max_spec rest r.ADDRESS_ID
    refine ⟨?_, ?_⟩
    · intro x hx
      rcases List.mem_cons.mp hx with rfl | hx
      · exact h1
      · exact h2 x hx
    · rcases h3 with h3 | ⟨x, hx, h3⟩
      · exact ⟨r, List.mem_cons_self _ _, h3.symm⟩
      · exact ⟨x, List.mem_cons_of_mem _ hx, h3⟩

/-- While the ids of the table leave room below `2 ^ 53`, the next id is the maximum id plus
one, or 1 for an empty table. -/
theorem nextAddressId_eq (table : List OracleAddress)
    (hb : ∀ r ∈ table, -9007199254740992 < r.ADDRESS_ID ∧
      r.ADDRESS_ID + 1 < 9007199254740992) :
    nextAddressId table =
      match maxAddressId table with
      | some mx => mx + 1
      | none => 1 := by
  unfold nextAddressId
  cases h : maxAddressId table with
  | none => exact roundDouble_exact _ (by omega) (by omega)
  | some mx =>
    obtain ⟨-, r, hr, hmx⟩ := maxAddressId_spec table mx h
    obtain ⟨b1, b2⟩ := hb r hr
    rw [hmx] at b1 b2
    show roundDouble ((if mx ≠ 0 then mx else 0) + 1) = mx + 1
    have : (if mx ≠ 0 then mx else 0) + 1 = mx + 1 := by
      by_cases h0 : mx = 0 <;> simp [h0]
    rw [this]
    exact roundDouble_exact _ (by omega) (by omega)

theorem nextAddressId_gt (table : List OracleAddress)
    (hb : ∀ r ∈ table, -9007199254740992 < r.ADDRESS_ID ∧
      r.ADDRESS_ID + 1 < 9007199254740992) :
    ∀ r ∈ table, r.ADDRESS_ID < nextAddressId table := by
  intro r hr
  rw [nextAddressId_eq table hb]
  cases h : maxAddressId table with
  | none => cases table <;> simp_all [maxAddressId]
  | some mx =>
    have := (maxAddressId_spec table mx h).1 r hr
    show r.ADDRESS_ID < mx + 1
    omega

theorem ids_map_update (table : List OracleAddress) (id : Int) (address : Address) :
    (table.map (fun r => if r.ADDRESS_ID = id then rowOf id address else r)).map
        (fun r => r.ADDRESS_ID) = table.map (fun r => r.ADDRESS_ID) := by
  rw [List.map_map]
  apply List.map_congr_left
  intro r _
  by_cases h : r.ADDRESS_ID = id <;> simp [h, rowOf]

theorem snoc_eq_split {α : Type} (xs pre post : List α) (e x : α)
    (h : xs ++ [e] = pre ++ x :: post) :
    (post = [] ∧ xs = pre ∧ e = x) ∨ ∃ post1, post = post1 ++ [e] ∧ xs = pre ++ x :: post1 := by
  rcases List.eq_nil_or_concat post with rfl | ⟨post1, b, rfl⟩
  · left
    have h2 : xs ++ [e] = pre ++ [x] := h
    have := List.append_inj' h2 rfl
    simpa using this
  · right
    have h2 : xs ++ [e] = (pre ++ x :: post1) ++ [b] := by simpa using h
    have := List.append_inj' h2 rfl
    obtain ⟨h3, h4⟩ := this
    simp only [List.cons.injEq, and_true] at h4
    subst h4
    exact ⟨post1, by simp, h3⟩

theorem insertedIds_append (xs ys : List Event) :
    insertedIds (xs ++ ys) = insertedIds xs ++ insertedIds ys := by
  simp [insertedIds, List.filterMap_append]

theorem insertAddresses_append (xs ys : List Event) :
    insertAddresses (xs ++ ys) = insertAddresses xs ++ insertAddresses ys := by
  simp [insertAddresses, List.filterMap_append]

theorem insertedIds_single (e : Event) : insertedIds [e] = e.insertedId.toList := by
  cases h : e.insertedId <;> simp [insertedIds, List.filterMap_cons, h]

theorem insertAddresses_single (e : Event) :
    insertAddresses [e] = e.insertAddress.toList := by
  cases h : e.insertAddress <;> simp [insertAddresses, List.filterMap_cons, h]

theorem enum_take_succ (l : List SqlAddress) (k : Nat) (a : SqlAddress)
    (ha : l[k]? = some a) : l.enum.take (k + 1) = l.enum.take k ++ [(k, a)] := by
  rw [List.take_succ, List.getElem?_enum, ha]
  rfl

/-- C9, as the claim states it: a record whose key is not in the index gets no INSERT when
the query of the next id throws (it is counted as an error), and in a table whose maximum id
is `2 ^ 53` the id of the INSERT is `2 ^ 53` again, an id that is already in the table. -/
theorem insert_skipped_or_id_reused :
    (∀ U : CaseTable,
      mapHas (existingAddressMap U []) (sourceKey U sampleAddress) = false ∧
      (refreshAddressTable U [] [sampleAddress] (fun _ => false) (fun _ => true)).events =
        [.processing 1 1, .noId (transformAddress sampleAddress), .commit, .commit] ∧
      (refreshAddressTable U [] [sampleAddress] (fun _ => false) (fun _ => true)).errorCount
        = 1) ∧
    (∀ U : CaseTable,
      mapHas (existingAddressMap U [rowAtLimit]) (sourceKey U sampleAddress) = false ∧
      rowAtLimit.ADDRESS_ID = 2 ^ 53 ∧
      (refreshAddressTable U [rowAtLimit] [sampleAddress] (fun _ => false)
          (fun _ => false)).events =
        [.processing 1 1, .insert (2 ^ 53) (transformAddress sampleAddress) true, .commit,
          .commit]) :=
  ⟨fun _ => ⟨rfl, rfl, rfl⟩, fun _ => ⟨rfl, rfl, rfl⟩⟩

/-- C9, amended: every record whose key is absent from the index and whose id query succeeds
gets exactly one INSERT (the INSERT statements bind the transformed records with absent keys
and successful id queries, in order). While the ids stay below `2 ^ 53`, the id of each
INSERT is computed from the table as it is at that moment, whose ids are the initial ones
followed by those of the earlier successful inserts, as its maximum id plus one, or 1 when it
has no row, and is greater than every id in it; the ids of the successful inserts of a run
are strictly increasing and none of them is an id of the initial table. -/
theorem insert_ids_are_fresh (U : CaseTable) (table : List OracleAddress)
    (sqlAddresses : List SqlAddress) (fails queryFails : Nat → Bool)
    (hlen : (sqlAddresses.length : Int) < 2 ^ 53)
    (hids : ∀ r ∈ table, -(2 ^ 53) < r.ADDRESS_ID ∧
      r.ADDRESS_ID + sqlAddresses.length < 2 ^ 53) :
    insertAddresses (refreshAddressTable U table sqlAddresses fails queryFails).events =
        (sqlAddresses.enum.filter
          (fun p => !mapHas (existingAddressMap U table) (sourceKey U p.2) &&
            !queryFails p.1)).map (fun p => transformAddress p.2) ∧
      (∀ pre id a ok post,
        (refreshAddressTable U table sqlAddresses fails queryFails).events =
          pre ++ .insert id a ok :: post →
        ∃ tbl : List OracleAddress,
          tbl.map (fun r => r.ADDRESS_ID) =
            table.map (fun r => r.ADDRESS_ID) ++ insertedIds pre ∧
          id = nextAddressId tbl ∧
          (id = match maxAddressId tbl with
            | some mx => mx + 1
            | none => 1) ∧
          ∀ r ∈ tbl, r.ADDRESS_ID < id) ∧
      (insertedIds (refreshAddressTable U table sqlAddresses fails queryFails).events).Pairwise
        (fun x y => x < y) ∧
      (∀ id ∈ insertedIds (refreshAddressTable U table sqlAddresses fails queryFails).events,
        ∀ r ∈ table, r.ADDRESS_ID < id) ∧
      (refreshAddressTable U table sqlAddresses fails queryFails).table.map
          (fun r => r.ADDRESS_ID) =
        table.map (fun r => r.ADDRESS_ID) ++
          insertedIds (refreshAddressTable U table sqlAddresses fails queryFails).events := by
  have h253 : (2 : Int) ^ 53 = 9007199254740992 := by norm_num
  rw [h253] at hlen
  simp only [h253] at hids
  have key := refresh_ind U table sqlAddresses fails queryFails
    (fun k st =>
      insertAddresses st.events =
          ((sqlAddresses.enum.take k).filter
            (fun p => !mapHas (existingAddressMap U table) (sourceKey U p.2) &&
              !queryFails p.1)).map (fun p => transformAddress p.2) ∧
        (∀ pre id a ok post, st.events = pre ++ .insert id a ok :: post →
          ∃ tbl : List OracleAddress,
            tbl.map (fun r => r.ADDRESS_ID) =
              table.map (fun r => r.ADDRESS_ID) ++ insertedIds pre ∧
            id = nextAddressId tbl ∧
            (id = match maxAddressId tbl with
              | some mx => mx + 1
              | none => 1) ∧
            ∀ r ∈ tbl, r.ADDRESS_ID < id) ∧
        (insertedIds st.events).Pairwise (fun x y => x < y) ∧
        (∀ id ∈ insertedIds st.events, ∀ r ∈ table, r.ADDRESS_ID < id) ∧
        st.table.map (fun r => r.ADDRESS_ID) =
          table.map (fun r => r.ADDRESS_ID) ++ insertedIds st.events ∧
        (k ≤ sqlAddresses.length ∧
          ∀ r ∈ st.table, -9007199254740992 < r.ADDRESS_ID ∧
            r.ADDRESS_ID + ((sqlAddresses.length : Int) - k) < 9007199254740992))
    (by
      intro k st e he ⟨h1, h2, h3, h5, h4, h6⟩
      obtain ⟨-, -, -, -, e5, e6⟩ := not_record_cases e he
      refine ⟨?_, ?_, ?_, ?_, ?_, h6⟩
      · simpa [insertAddresses_append, insertAddresses_single, e6] using h1
      · intro pre id a ok post hsplit
        rcases snoc_eq_split _ _ _ _ _ hsplit with ⟨-, -, h⟩ | ⟨post1, -, h⟩
        · subst h; simp [Event.isRecord] at he
        · exact h2 pre id a ok post1 h
      · simpa [insertedIds_append, insertedIds_single, e5] using h3
      · simpa [insertedIds_append, insertedIds_single, e5] using h5
      · simpa [insertedIds_append, insertedIds_single, e5] using h4)
    (by
      intro k st a ha ⟨h1, h2, h3, h5, h4, hk, h6⟩
      have hklt : k < sqlAddresses.length := by
        by_contra hge
        rw [List.getElem?_eq_none (by omega)] at ha
        simp at ha
      have htake := enum_take_succ sqlAddresses k a ha
      have hb1 : ∀ r ∈ st.table, -9007199254740992 < r.ADDRESS_ID ∧
          r.ADDRESS_ID + 1 < 9007199254740992 := by
        intro r hr
        obtain ⟨b1, b2⟩ := h6 r hr
        exact ⟨b1, by omega⟩
      rcases processAddress_eq U (existingAddressMap U table) (fails k) (queryFails k) st a with
        ⟨e, hhas, -, heq⟩ | ⟨hhas, hq, heq⟩ | ⟨hhas, hq, heq⟩
      · rw [heq]
        refine ⟨?_, ?_, ?_, ?_, ?_, by omega, ?_⟩
        · simp [insertAddresses_append, insertAddresses_single, Event.insertAddress, htake,
            List.filter_append, hhas, h1]
        · intro pre id a1 ok post hsplit
          rcases snoc_eq_split _ _ _ _ _ hsplit with ⟨-, -, h⟩ | ⟨post1, -, h⟩
          · simp at h
          · exact h2 pre id a1 ok post1 h
        · simpa [insertedIds_append, insertedIds_single, Event.insertedId] using h3
        · simpa [insertedIds_append, insertedIds_single, Event.insertedId] using h5
        · cases fails k
          · simp only [insertedIds_append, insertedIds_single, Event.insertedId,
              Bool.false_eq_true, if_false, Option.toList, List.append_nil]
            rw [ids_map_update]; exact h4
          · simpa [insertedIds_append, insertedIds_single, Event.insertedId] using h4
        · intro r hr
          have hr2 : r.ADDRESS_ID ∈ st.table.map (fun r => r.ADDRESS_ID) := by
            cases hf : fails k
            · simp only [hf, Bool.false_eq_true, if_false] at hr
              rw [← ids_map_update st.table e.ADDRESS_ID (transformAddress a)]
              exact List.mem_map_of_mem _ hr
            · simp only [hf, if_true] at hr
              exact List.mem_map_of_mem _ hr
          obtain ⟨r0, hr0, hid⟩ := List.mem_map.mp hr2
          obtain ⟨b1, b2⟩ := h6 r0 hr0
          have hid1 : r0.ADDRESS_ID = r.ADDRESS_ID := hid
          rw [← hid1]
          push_cast
          exact ⟨b1, by omega⟩
      · rw [heq]
        have hgt := nextAddressId_gt st.table hb1
        have hnext := nextAddressId_eq st.table hb1
        have hgt2 : ∀ x ∈ st.table.map (fun r => r.ADDRESS_ID), x < nextAddressId st.table := by
          intro x hx
          obtain ⟨r, hr, rfl⟩ := List.mem_map.mp hx
          exact hgt r hr
        have hnb : -9007199254740992 < nextAddressId st.table ∧
            nextAddressId st.table + ((sqlAddresses.length : Int) - (k + 1)) <
              9007199254740992 := by
          cases hmax : maxAddressId st.table with
          | none =>
            have hn : nextAddressId st.table = 1 := by rw [hnext, hmax]
            rw [hn]
            exact ⟨by omega, by omega⟩
          | some mx =>
            obtain ⟨-, r, hr, hmx⟩ := maxAddressId_spec st.table mx hmax
            obtain ⟨b1, b2⟩ := h6 r hr
            rw [hmx] at b1 b2
            have hn : nextAddressId st.table = mx + 1 := by rw [hnext, hmax]
            rw [hn]
            exact ⟨by omega, by omega⟩
        refine ⟨?_, ?_, ?_, ?_, ?_, by omega, ?_⟩
        · simp [insertAddresses_append, insertAddresses_single, Event.insertAddress, htake,
            List.filter_append, hhas, hq, h1]
        · intro pre id a1 ok post hsplit
          rcases snoc_eq_split _ _ _ _ _ hsplit with ⟨-, hpre, h⟩ | ⟨post1, -, h⟩
          · simp only [Event.insert.injEq] at h
            refine ⟨st.table, ?_, h.1.symm, ?_, ?_⟩
            · rw [← hpre]; exact h4
            · rw [← h.1]; exact hnext
            · rw [← h.1]; exact hgt
          · exact h2 pre id a1 ok post1 h
        · cases hf : fails k
          · simp only [insertedIds_append, insertedIds_single, Event.insertedId, Bool.not_false,
              Option.toList]
            rw [List.pairwise_append]
            refine ⟨h3, by simp, ?_⟩
            intro x hx y hy
            simp only [List.mem_singleton] at hy
            subst hy
            exact hgt2 x (by rw [h4]; exact List.mem_append_right _ hx)
          · simpa [insertedIds_append, insertedIds_single, Event.insertedId] using h3
        · cases hf : fails k
          · simp only [insertedIds_append, insertedIds_single, Event.insertedId, Bool.not_false,
              Option.toList]
            intro id hid r hr
            rcases List.mem_append.mp hid with hid | hid
            · exact h5 id hid r hr
            · simp only [List.mem_singleton] at hid
              subst hid
              exact hgt2 _ (by rw [h4]; exact List.mem_append_left _ (List.mem_map_of_mem _ hr))
          · simpa [insertedIds_append, insertedIds_single, Event.insertedId] using h5
        · cases fails k <;>
            simp [insertedIds_append, insertedIds_single, Event.insertedId, rowOf, h4]
        · intro r hr
          cases hf : fails k
          · simp only [hf, Bool.false_eq_true, if_false] at hr
            rcases List.mem_append.mp hr with hr | hr
            · obtain ⟨b1, b2⟩ := h6 r hr
              push_cast
              exact ⟨b1, by omega⟩
            · simp only [List.mem_singleton] at hr
              subst hr
              simp only [rowOf]
              push_cast at hnb ⊢
              exact hnb
          · simp only [hf, if_true] at hr
            obtain ⟨b1, b2⟩ := h6 r hr
            push_cast
            exact ⟨b1, by omega⟩
      · rw [heq]
        refine ⟨?_, ?_, ?_, ?_, ?_, by omega, ?_⟩
        · simp [insertAddresses_append, insertAddresses_single, Event.insertAddress, htake,
            List.filter_append, hhas, hq, h1]
        · intro pre id a1 ok post hsplit
          rcases snoc_eq_split _ _ _ _ _ hsplit with ⟨-, -, h⟩ | ⟨post1, -, h⟩
          · simp at h
          · exact h2 pre id a1 ok post1 h
        · simpa [insertedIds_append, insertedIds_single, Event.insertedId] using h3
        · simpa [insertedIds_append, insertedIds_single, Event.insertedId] using h5
        · simpa [insertedIds_append, insertedIds_single, Event.insertedId] using h4
        · intro r hr
          obtain ⟨b1, b2⟩ := h6 r hr
          push_cast
          exact ⟨b1, by omega⟩)
    (by
      refine ⟨by simp [insertAddresses], ?_, by simp [insertedIds], by simp [insertedIds],
        by simp [insertedIds], by omega, ?_⟩
      · intro pre id a ok post h
        simp at h
      · intro r hr
        obtain ⟨b1, b2⟩ := hids r hr
        exact ⟨b1, by omega⟩)
  obtain ⟨k1, k2, k3, k5, k4, -⟩ := key
  refine ⟨?_, k2, k3, k5, k4⟩
  have : sqlAddresses.enum.take sqlAddresses.length = sqlAddresses.enum := by
    apply List.take_of_length_le
    simp
  rw [this] at k1
  exact k1

/-- The statement of C9, amended, at a table that holds the row of the first of two records:
the first record is updated and the second, whose key is absent, is the one INSERT. -/
theorem insert_ids_are_fresh_witness :
    ((([sampleAddress, sampleAddressNoPostal].length : Int) < 2 ^ 53) ∧
      (∀ r ∈ [rowOf 1 (transformAddress sampleAddress)], -(2 ^ 53) < r.ADDRESS_ID ∧
        r.ADDRESS_ID + ([sampleAddress, sampleAddressNoPostal].length : Int) < 2 ^ 53)) ∧
      ∀ U : CaseTable,
        insertAddresses (refreshAddressTable U [rowOf 1 (transformAddress sampleAddress)]
          [sampleAddress, sampleAddressNoPostal] (fun _ => false) (fun _ => false)).events =
            [transformAddress sampleAddressNoPostal] :=
  ⟨⟨by norm_num, by simp [rowOf]⟩, fun U =>
    (insert_ids_are_fresh U [rowOf 1 (transformAddress sampleAddress)]
      [sampleAddress, sampleAddressNoPostal] (fun _ => false)
      (fun _ => false) (by norm_num) (by simp [rowOf])).1.trans rfl⟩

theorem shapes_processAddress (U : CaseTable) (m : AddressMap) (fail : Bool) (st : RunState)
    (a : SqlAddress) :
    shapes (processAddress U m fail false st a).events = shapes st.events ++ [.write] := by
  rcases processAddress_eq U m fail false st a with
    ⟨e, -, -, heq⟩ | ⟨-, -, heq⟩ | ⟨-, hq, -⟩
  · simp [heq, shapes, Event.shape]
  · simp [heq, shapes, Event.shape]
  · simp at hq

theorem shapes_processBatch (U : CaseTable) (m : AddressMap) (fails : Nat → Bool)
    (batch : List SqlAddress) :
    ∀ (i : Nat) (st : RunState),
      shapes (processBatch U m fails (fun _ => false) i st batch).events =
        shapes st.events ++ List.replicate batch.length .write := by
  induction batch with
  | nil => intro i st; simp [processBatch]
  | cons a rest ih =>
    intro i st
    simp only [processBatch, ih, shapes_processAddress, List.length_cons, List.replicate_succ]
    simp

theorem batchLoop_succ (U : CaseTable) (m : AddressMap) (fails queryFails : Nat → Bool)
    (l : List SqlAddress) (fuel i : Nat) (st : RunState) (hi : i < l.length) :
    batchLoop U m fails queryFails l (fuel + 1) i st =
      batchLoop U m fails queryFails l fuel (i + batchSize)
        (if i % (batchSize * 10) = 0 then
          commit (processBatch U m fails queryFails i
            { st with events := st.events ++
              [.processing (i / batchSize + 1) ((l.length + batchSize - 1) / batchSize)] }
            ((l.drop i).take batchSize))
        else
          processBatch U m fails queryFails i
            { st with events := st.events ++
              [.processing (i / batchSize + 1) ((l.length + batchSize - 1) / batchSize)] }
            ((l.drop i).take batchSize)) := by
  simp only [batchLoop, hi, if_true]

theorem batchLoop_done (U : CaseTable) (m : AddressMap) (fails queryFails : Nat → Bool)
    (l : List SqlAddress) (fuel i : Nat) (st : RunState) (hi : l.length ≤ i) :
    batchLoop U m fails queryFails l fuel i st = st := by
  cases fuel with
  | zero => rfl
  | succ fuel => simp only [batchLoop, Nat.not_lt.mpr hi, if_false]

theorem shapes_commit (st : RunState) :
    shapes (commit st).events = shapes st.events ++ [.commit] := by
  simp [commit, shapes, Event.shape]

theorem shapes_append (xs ys : List Event) : shapes (xs ++ ys) = shapes xs ++ shapes ys := by
  simp [shapes]

theorem shapes_announce (k t : Nat) : shapes [.processing k t] = [.processing k t] := rfl

theorem shapes_nil : shapes [] = [] := rfl

theorem coarse_processAddress (U : CaseTable) (m : AddressMap) (fail queryFail : Bool)
    (st : RunState) (a : SqlAddress) :
    (shapes (processAddress U m fail queryFail st a).events).map
        (fun s => if s = Shape.noId then Shape.write else s) =
      (shapes st.events).map (fun s => if s = Shape.noId then Shape.write else s) ++
        [.write] := by
  rcases processAddress_eq U m fail queryFail st a with
    ⟨e, -, -, heq⟩ | ⟨-, -, heq⟩ | ⟨-, -, heq⟩
  · simp [heq, shapes, Event.shape]
  · simp [heq, shapes, Event.shape]
  · simp [heq, shapes, Event.shape]

theorem coarse_processBatch (U : CaseTable) (m : AddressMap) (fails queryFails : Nat → Bool)
    (batch : List SqlAddress) :
    ∀ (i : Nat) (st : RunState),
      (shapes (processBatch U m fails queryFails i st batch).events).map
          (fun s => if s = Shape.noId then Shape.write else s) =
        (shapes st.events).map (fun s => if s = Shape.noId then Shape.write else s) ++
          List.replicate batch.length .write := by
  induction batch with
  | nil => intro i st; simp [processBatch]
  | cons a rest ih =>
    intro i st
    simp only [processBatch, ih, coarse_processAddress, List.length_cons, List.replicate_succ]
    simp

/-- C5: on 2,500 records the run announces three batches of 1000, 1000 and 500 writes and
commits twice: once after the first batch and once at the end. The same holds when queries of
the next id fail, with a record given up for want of an id in the place of its write. -/
theorem commits_for_2500_records (U : CaseTable) (table : List OracleAddress)
    (sqlAddresses : List SqlAddress) (fails : Nat → Bool)
    (hlen : sqlAddresses.length = 2500) :
    shapes (refreshAddressTable U table sqlAddresses fails (fun _ => false)).events =
        [.processing 1 3] ++ List.replicate 1000 .write ++ [.commit] ++
        [.processing 2 3] ++ List.replicate 1000 .write ++
        [.processing 3 3] ++ List.replicate 500 .write ++ [.commit] ∧
      ∀ queryFails : Nat → Bool,
        (shapes (refreshAddressTable U table sqlAddresses fails queryFails).events).map
            (fun s => if s = Shape.noId then Shape.write else s) =
          [.processing 1 3] ++ List.replicate 1000 .write ++ [.commit] ++
          [.processing 2 3] ++ List.replicate 1000 .write ++
          [.processing 3 3] ++ List.replicate 500 .write ++ [.commit] := by
  have h0 : (0 % (batchSize * 10) = 0) = True := by decide
  have h1 : ((0 + batchSize) % (batchSize * 10) = 0) = False := by decide
  have h2 : ((0 + batchSize + batchSize) % (batchSize * 10) = 0) = False := by decide
  have hrun : ∀ queryFails : Nat → Bool,
      refreshAddressTable U table sqlAddresses fails queryFails =
        commit (processBatch U (existingAddressMap U table) fails queryFails
          (0 + batchSize + batchSize)
          { (processBatch U (existingAddressMap U table) fails queryFails (0 + batchSize)
              { (commit (processBatch U (existingAddressMap U table) fails queryFails 0
                  { table := table, updateCount := 0, insertCount := 0, errorCount := 0,
                    events := [] ++ [.processing 1 3] }
                  ((sqlAddresses.drop 0).take batchSize))) with
                events := (commit (processBatch U (existingAddressMap U table) fails queryFails 0
                  { table := table, updateCount := 0, insertCount := 0, errorCount := 0,
                    events := [] ++ [.processing 1 3] }
                  ((sqlAddresses.drop 0).take batchSize))).events ++ [.processing 2 3] }
              ((sqlAddresses.drop (0 + batchSize)).take batchSize)) with
            events := (processBatch U (existingAddressMap U table) fails queryFails
              (0 + batchSize)
              { (commit (processBatch U (existingAddressMap U table) fails queryFails 0
                  { table := table, updateCount := 0, insertCount := 0, errorCount := 0,
                    events := [] ++ [.processing 1 3] }
                  ((sqlAddresses.drop 0).take batchSize))) with
                events := (commit (processBatch U (existingAddressMap U table) fails queryFails 0
                  { table := table, updateCount := 0, insertCount := 0, errorCount := 0,
                    events := [] ++ [.processing 1 3] }
                  ((sqlAddresses.drop 0).take batchSize))).events ++ [.processing 2 3] }
              ((sqlAddresses.drop (0 + batchSize)).take batchSize)).events ++
                [.processing 3 3] }
          ((sqlAddresses.drop (0 + batchSize + batchSize)).take batchSize)) := by
    intro queryFails
    simp only [refreshAddressTable]
    rw [hlen, show (2500 : Nat) = 2496 + 1 + 1 + 1 + 1 from rfl]
    rw [batchLoop_succ _ _ _ _ _ _ _ _ (by rw [hlen]; decide)]
    rw [batchLoop_succ _ _ _ _ _ _ _ _ (by rw [hlen]; decide)]
    rw [batchLoop_succ _ _ _ _ _ _ _ _ (by rw [hlen]; decide)]
    rw [batchLoop_done _ _ _ _ _ _ _ _ (by rw [hlen]; decide)]
    simp only [h0, h1, h2, if_true, if_false, hlen]
    rfl
  refine ⟨?_, fun queryFails => ?_⟩
  · rw [hrun]
    simp only [shapes_commit, shapes_processBatch, shapes_append, shapes_announce, shapes_nil,
      List.length_take, List.length_drop, hlen, batchSize]
    norm_num
  · rw [hrun]
    simp only [shapes_commit, coarse_processBatch, shapes_append, shapes_announce, shapes_nil,
      List.map_append, List.length_take, List.length_drop, hlen, batchSize]
    norm_num
    exact ⟨fun h => (nomatch h), fun h => (nomatch h), fun h => (nomatch h),
      fun h => (nomatch h), fun h => (nomatch h)⟩

/-- The statement of C5 at 2,500 copies of one record. -/
theorem commits_for_2500_records_witness :
    (List.replicate 2500 sampleAddress).length = 2500 ∧
      ∀ U : CaseTable,
        shapes (refreshAddressTable U [] (List.replicate 2500 sampleAddress) (fun _ => false)
          (fun _ => false)).events =
        [.processing 1 3] ++ List.replicate 1000 .write ++ [.commit] ++
        [.processing 2 3] ++ List.replicate 1000 .write ++
        [.processing 3 3] ++ List.replicate 500 .write ++ [.commit] :=
  ⟨List.length_replicate 2500 sampleAddress, fun U =>
    (commits_for_2500_records U [] (List.replicate 2500 sampleAddress) (fun _ => false)
      (List.length_replicate 2500 sampleAddress)).1⟩

/-- C6: a record whose key is in the index and whose transformed fields all equal those of the
matched row still gets an UPDATE and is counted as an update, and the table is left as it
was; the sibling script issues no statement for an unchanged record. -/
theorem update_issued_without_difference (U : CaseTable) :
    (refreshAddressTable U [rowOf 1 (transformAddress sampleAddress)] [sampleAddress]
        (fun _ => false) (fun _ => false)).events =
      [.processing 1 1, .update 1 (transformAddress sampleAddress) true, .commit, .commit] ∧
    (refreshAddressTable U [rowOf 1 (transformAddress sampleAddress)] [sampleAddress]
        (fun _ => false) (fun _ => false)).updateCount = 1 ∧
    (refreshAddressTable U [rowOf 1 (transformAddress sampleAddress)] [sampleAddress]
        (fun _ => false) (fun _ => false)).table = [rowOf 1 (transformAddress sampleAddress)] ∧
    (LegacyRefresh.refreshOracleAddresses
        [⟨1, .str "100 Main St", .str "Ottawa", .str "ON", .str "K1A 0B1"⟩]
        [⟨.str "100 Main St", .str "Ottawa", .str "ON", .str "K1A 0B1"⟩] (fun _ => false)).2 =
      [.commit] :=
  ⟨rfl, rfl, rfl, by decide⟩

theorem lookup_mapSet (m : AddressMap) (key k : String) (a : OracleAddress) :
    List.lookup k (mapSet m key a) = if k = key then some a else List.lookup k m := by
  unfold mapSet
  cases hk : List.lookup key m with
  | none =>
    simp only [Option.isSome_none, Bool.false_eq_true, if_false]
    exact lookup_append_new key k a m hk
  | some old =>
    simp only [Option.isSome_some, if_true]
    have hfun : (fun e : String × OracleAddress => if e.1 = key then (key, a) else e) =
        (fun e => if e.1 = key then (e.1, (fun _ => a) e.2) else e) := by
      funext e
      by_cases h : e.1 = key <;> simp [h]
    rw [hfun, lookup_map_update (fun _ => a) key k m, hk]
    simp

theorem lookup_foldl_mapSet (entries : List (String × OracleAddress)) (k : String) :
    ∀ acc : AddressMap,
      List.lookup k (entries.foldl (fun m e => mapSet m e.1 e.2) acc) =
        match entries.reverse.find? (fun e => e.1 = k) with
        | some e => some e.2
        | none => List.lookup k acc := by
  induction entries with
  | nil => intro acc; simp
  | cons e rest ih =>
    intro acc
    rw [List.foldl_cons, ih, List.reverse_cons, List.find?_append]
    cases hfind : rest.reverse.find? (fun e => e.1 = k) with
    | some e1 => simp
    | none =>
      by_cases h : e.1 = k
      · simp [h, lookup_mapSet]
      · have h2 : ¬ k = e.1 := fun h3 => h h3.symm
        simp [h, h2, lookup_mapSet]

/-- The index has a key exactly when some row of the table has it, and the row it holds for
a key is a row of the table with that key. -/
theorem existingAddressMap_spec (U : CaseTable) (table : List OracleAddress) (k : String) :
    (mapHas (existingAddressMap U table) k = true ↔ ∃ a ∈ table, targetKey U a = k) ∧
      ∀ e, mapGet (existingAddressMap U table) k = some e → e ∈ table ∧ targetKey U e = k := by
  unfold mapHas mapGet existingAddressMap newMap
  rw [lookup_foldl_mapSet]
  cases hfind : (table.map (fun a => (targetKey U a, a))).reverse.find? (fun e => e.1 = k) with
  | some e1 =>
    have hmem := List.mem_of_find?_eq_some hfind
    have hp := List.find?_some hfind
    simp only [List.mem_reverse, List.mem_map] at hmem
    obtain ⟨a, ha, rfl⟩ := hmem
    simp only [decide_eq_true_eq] at hp
    refine ⟨⟨fun _ => ⟨a, ha, hp⟩, fun _ => rfl⟩, ?_⟩
    intro e he
    simp only [Option.some.injEq] at he
    subst he
    exact ⟨ha, hp⟩
  | none =>
    rw [List.find?_eq_none] at hfind
    refine ⟨⟨fun h => by simp at h, ?_⟩, fun e he => by simp at he⟩
    rintro ⟨a, ha, hk⟩
    have := hfind (targetKey U a, a) (List.mem_reverse.mpr (List.mem_map.mpr ⟨a, ha, rfl⟩))
    simp [hk] at this

/-- C8, as the claim states it: the key of a record without a postal code differs from the key
with an empty segment for the missing field. -/
theorem null_field_is_not_an_empty_segment :
    (∀ U : CaseTable, sourceKey U sampleAddressNoPostal = "100main stnull") ∧
      (∀ U : CaseTable,
        specKey U sampleAddressNoPostal.StreetNumber sampleAddressNoPostal.StreetName
          sampleAddressNoPostal.PostalCode = "100main st") ∧
      (∀ U : CaseTable,
        sourceKey U sampleAddressNoPostal ≠
          specKey U sampleAddressNoPostal.StreetNumber sampleAddressNoPostal.StreetName
            sampleAddressNoPostal.PostalCode) := by
  have h1 : ∀ U : CaseTable, sourceKey U sampleAddressNoPostal = "100main stnull" :=
    fun _ => rfl
  have h2 : ∀ U : CaseTable,
      specKey U sampleAddressNoPostal.StreetNumber sampleAddressNoPostal.StreetName
        sampleAddressNoPostal.PostalCode = "100main st" := fun _ => rfl
  refine ⟨h1, h2, fun U => ?_⟩
  rw [h1 U, h2 U]
  decide

/-- C8, amended: the key of an incoming record and the key of an existing row are both the
lower-cased concatenation, in this order, of the segments of street number, street name and
postal code, where a `null` field contributes the text `null` and an `undefined` field the
text `undefined`; this is the key of the specification whenever none of the three fields is
missing; the index built from the existing rows has a key exactly when a row has it; the
computation is total. -/
theorem key_is_lowercased_concatenation (U : CaseTable) (table : List OracleAddress)
    (r : SqlAddress) (a : OracleAddress) :
    sourceKey U r = amendedKey U r.StreetNumber r.StreetName r.PostalCode ∧
      targetKey U a = amendedKey U a.STREET_NUMBER a.STREET_NAME a.POSTAL_CODE ∧
      (missing r.StreetNumber = false → missing r.StreetName = false →
        missing r.PostalCode = false →
        sourceKey U r = specKey U r.StreetNumber r.StreetName r.PostalCode) ∧
      (missing a.STREET_NUMBER = false → missing a.STREET_NAME = false →
        missing a.POSTAL_CODE = false →
        targetKey U a = specKey U a.STREET_NUMBER a.STREET_NAME a.POSTAL_CODE) ∧
      (mapHas (existingAddressMap U table) (sourceKey U r) = true ↔
        ∃ e ∈ table, targetKey U e = sourceKey U r) := by
  have hseg : ∀ v : Value, amendedSegment v = v.toStr := by
    intro v; cases v <;> rfl
  have hspec : ∀ v : Value, missing v = false → specSegment v = v.toStr := by
    intro v hv; cases v <;> simp_all [missing, specSegment, Value.toStr]
  refine ⟨?_, ?_, ?_, ?_, (existingAddressMap_spec U table (sourceKey U r)).1⟩
  · simp only [sourceKey, amendedKey, hseg]
  · simp only [targetKey, amendedKey, hseg]
  · intro h1 h2 h3
    simp only [sourceKey, specKey, hspec _ h1, hspec _ h2, hspec _ h3]
  · intro h1 h2 h3
    simp only [targetKey, specKey, hspec _ h1, hspec _ h2, hspec _ h3]

/-- C10: for a record without a postal code the key of the raw source row differs from the
key of the row inserted for it, so a second run after a first run without errors does not
find the key in the index and inserts the record again. -/
theorem unknown_postal_code_is_inserted_again (U : CaseTable) :
    sourceKey U sampleAddressNoPostal = "100main stnull" ∧
      targetKey U (rowOf 1 (transformAddress sampleAddressNoPostal)) = "100main stunknown" ∧
      (refreshAddressTable U [] [sampleAddressNoPostal] (fun _ => false)
        (fun _ => false)).errorCount = 0 ∧
      (refreshAddressTable U [] [sampleAddressNoPostal] (fun _ => false)
        (fun _ => false)).table = [rowOf 1 (transformAddress sampleAddressNoPostal)] ∧
      mapHas (existingAddressMap U [rowOf 1 (transformAddress sampleAddressNoPostal)])
        (sourceKey U sampleAddressNoPostal) = false ∧
      insertedIds (refreshAddressTable U
        (refreshAddressTable U [] [sampleAddressNoPostal] (fun _ => false)
          (fun _ => false)).table
        [sampleAddressNoPostal] (fun _ => false) (fun _ => false)).events = [2] :=
  ⟨rfl, rfl, rfl, rfl, rfl, rfl⟩

end AddressRefresh
